import Mathlib

/-!
# Lifecycle of the multi-channel transceiver process

A shallow embedding of `Transceiver52M/multiTRX.cpp`: the signal handler, the
signal set-up, the configuration probe `testConfig` and `main`.

The program talks to collaborators that are declared in headers outside the
translated file (the configuration table, the radio device, the radio
interface, the drive loop and the per-channel transceiver).  Every call to one
of them is recorded as an `Event` in a trace; what the collaborator answers is
read from an environment record `Env`.  Program state that the file itself owns
(the shutdown flag `gbShutdown`, the configuration table `gConfig`, the locals
of `main`) is passed explicitly.
-/

namespace MultiTRX

/-! ## Constants of the build -/

/-- Constants that the file uses but that are declared in headers which are not
part of the translated source: the channel bound `CHAN_MAX`, the oversampling
factor `SAMPSPERSYM` and the two enumerators of the device type. -/
structure Build where
  CHAN_MAX : Int
  SAMPSPERSYM : Int
  NORMAL : Int
  RESAMP : Int

/-- Location of the configuration database (`#define CONFIGDB`). -/
def CONFIGDB : String := "/etc/OpenBTS/OpenBTS.db"

/-- Value of the C library constant `EXIT_FAILURE`. -/
def EXIT_FAILURE : Int := 1

/-- Signal number of `SIGINT`. -/
def SIGINT : Int := 2

/-- Signal number of `SIGTERM`. -/
def SIGTERM : Int := 15

/-- Status that the parent process observes for a code handed to `exit` or
returned from `main`: the low eight bits. -/
def exitStatus (code : Int) : Int := code % 256

/-! ## The C library function `atoi` -/

/-- White space as classified by `isspace` in the C locale. -/
def isSpace (c : Char) : Bool :=
  c = ' ' || c = '\t' || c = '\n' || c = '\x0b' || c = '\x0c' || c = '\r'

/-- Value of a decimal digit character. -/
def digitVal (c : Char) : Nat := c.toNat - '0'.toNat

/-- Accumulates the longest run of leading decimal digits. -/
def atoiDigits : List Char → Nat → Nat
  | [], acc => acc
  | c :: cs, acc => if c.isDigit then atoiDigits cs (10 * acc + digitVal c) else acc

/-- Reads an optional sign followed by decimal digits. -/
def atoiSigned : List Char → Int
  | '-' :: cs => - (atoiDigits cs 0 : Int)
  | '+' :: cs => (atoiDigits cs 0 : Int)
  | cs => (atoiDigits cs 0 : Int)

/-- Skips leading white space, then reads a signed decimal number. -/
def atoiChars : List Char → Int
  | [] => 0
  | c :: cs => if isSpace c then atoiChars cs else atoiSigned (c :: cs)

/-- The C library function `atoi`: leading white space is skipped, an optional
sign and the longest run of decimal digits are converted, and text without a
leading number yields 0.  The value is the mathematical one (the C function is
undefined when it does not fit an `int`). -/
def atoi (s : String) : Int := atoiChars s.toList

/-! ## Events -/

/-- Severity of a log record, as used by the `LOG` statements of the file. -/
inductive LogLevel
  | ALERT
  | ERR
  | NOTICE
  deriving DecidableEq, Repr

/-- One externally visible action of the process. -/
inductive Event
  /-- A line written to standard output. -/
  | stdout (line : String)
  /-- A line written to standard error. -/
  | stderr (line : String)
  /-- A record handed to the logger. -/
  | log (level : LogLevel) (msg : String)
  /-- The call `sigaction(signum, &action, NULL)`. -/
  | sigaction (signum : Int)
  /-- The call `sqlite3_open(filename, &db)`. -/
  | sqlite3_open (filename : String)
  /-- The call `sqlite3_close(db)`. -/
  | sqlite3_close
  /-- The call `gLogInit("transceiver", level, LOG_LOCAL7)`. -/
  | gLogInit (level : String)
  /-- The call `srandom(time(NULL))`. -/
  | srandom
  /-- The call `RadioDevice::make(sps)`. -/
  | deviceMake (sps : Int)
  /-- The call `device->open(args)`. -/
  | deviceOpen (args : String)
  /-- The allocation `new RadioInterface(device, chans)`. -/
  | newRadioInterface (chans : Int)
  /-- The allocation `new DriveLoop(port, addr, radio, chans, 0)`. -/
  | newDriveLoop (port : Int) (addr : String) (chans : Int)
  /-- The call `drive->init()`. -/
  | driveInit
  /-- The allocation `new Transceiver(port, addr, drive, radio, sps, chan, primary)`. -/
  | newTransceiver (port : Int) (addr : String) (sps : Int) (chan : Nat) (primary : Bool)
  /-- The call `trx[chan]->start()`. -/
  | trxStart (chan : Nat)
  /-- One evaluation of `gbShutdown` in the condition of the polling loop. -/
  | readShutdown (value : Bool)
  /-- The call `sleep(secs)`. -/
  | sleep (secs : Nat)
  /-- The call `trx[chan]->shutdown()`. -/
  | trxShutdown (chan : Nat)
  /-- The statement `delete trx[chan]`. -/
  | deleteTransceiver (chan : Nat)
  /-- The statement `delete drive`. -/
  | deleteDriveLoop
  /-- The statement `delete radio`. -/
  | deleteRadioInterface
  /-- The statement `delete device`. -/
  | deleteRadioDevice
  deriving DecidableEq, Repr

/-! ## The configuration table -/

/-- Modelled from the spec: the class `ConfigurationTable` behind the global
`gConfig` is declared in `Configuration.h`, which is not part of the translated
source.  The spec describes it as a key-value store that supports `set`,
`remove` and a `get` that fails when the key is absent, and that may reject
writes.  Values are kept as text, because the file reads the key `TRX.Port`
both with `getStr` and with `getNum`. -/
structure ConfigurationTable where
  /-- The stored entries. -/
  entries : String → Option String
  /-- Whether the store accepts writes. -/
  writable : Bool

namespace ConfigurationTable

/-- The call `set(key, val)`: stores the value when the store accepts writes
and reports whether it did. -/
def set (c : ConfigurationTable) (key : String) (val : Int) : Bool × ConfigurationTable :=
  if c.writable then
    (true, { c with entries := fun k => if k = key then some (toString val) else c.entries k })
  else
    (false, c)

/-- The call `remove(key)`: drops the entry when the store accepts writes. -/
def remove (c : ConfigurationTable) (key : String) : ConfigurationTable :=
  if c.writable then
    { c with entries := fun k => if k = key then none else c.entries k }
  else
    c

/-- The call `getStr(key)`: the stored text, or `none` when the call throws
because the key is absent. -/
def getStr (c : ConfigurationTable) (key : String) : Option String :=
  c.entries key

/-- The call `getNum(key)`: the stored text read as a number, or `none` when
the call throws because the key is absent. -/
def getNum (c : ConfigurationTable) (key : String) : Option Int :=
  (c.entries key).map atoi

end ConfigurationTable

/-! ## Environment and state -/

/-- Everything the process receives from outside during one run. -/
structure Env where
  /-- The program name `argv[0]`. -/
  argv0 : String
  /-- The arguments after the program name, `argv[1]`, `argv[2]`, ...;
  `argc` is one more than their number. -/
  args : List String
  /-- Return value of `sigaction` for a signal number. -/
  sigactionRc : Int → Int
  /-- Return code of `sqlite3_open`. -/
  sqliteRc : Int
  /-- Whether `sqlite3_open` stored a non-null handle. -/
  dbHandle : Bool
  /-- Content of the configuration table when `main` starts. -/
  config : ConfigurationTable
  /-- Return value of `device->open`. -/
  radioType : Int
  /-- Return value of `drive->init()`. -/
  driveInitOk : Bool
  /-- Signals handled after the handlers are installed and before the polling
  loop reads the flag for the first time. -/
  signalsBeforePoll : List Int
  /-- Signals handled during the k-th `sleep(1)` of the polling loop. -/
  signalsDuringSleep : Nat → List Int

/-- The number of command-line arguments, `argc`. -/
def Env.argc (env : Env) : Nat := env.args.length + 1

/-- Program state owned by the file. -/
structure State where
  /-- The global `volatile bool gbShutdown`. -/
  gbShutdown : Bool
  /-- The global configuration table `gConfig`. -/
  gConfig : ConfigurationTable
  /-- The actions performed so far, oldest first. -/
  trace : List Event

/-- Appends one action to the trace. -/
def emit (e : Event) (st : State) : State :=
  { st with trace := st.trace ++ [e] }

/-- How a run ends. -/
inductive Termination
  /-- The process ended through `exit(code)` or `return code` from `main`. -/
  | exited (code : Int)
  /-- An exception left `main`. -/
  | aborted
  /-- A store beyond the end of the array `trx`. -/
  | outOfBounds
  /-- The polling loop was still running when the step budget ran out. -/
  | polling
  deriving DecidableEq, Repr

/-- Result of a run: the final state and the way the run ended. -/
structure Outcome where
  state : State
  termination : Termination

/-- The trace of a run. -/
def Outcome.trace (o : Outcome) : List Event := o.state.trace

/-! ## The signal handler -/

/-- The function `sigHandler`: logs a notice and sets the shutdown flag. -/
def sigHandler (_signum : Int) (st : State) : State :=
  let st := emit (.log .NOTICE "Received shutdown signal") st
  { st with gbShutdown := true }

/-- Runs the handler once for each delivered signal, in order. -/
def deliver : List Int → State → State
  | [], st => st
  | s :: ss, st => deliver ss (sigHandler s st)

/-- The function `setupSignals`: installs the handler for `SIGINT` and then for
`SIGTERM`, giving up at the first rejected installation. -/
def setupSignals (env : Env) (st : State) : Int × State :=
  let st := emit (.sigaction SIGINT) st
  if env.sigactionRc SIGINT < 0 then (-1, st)
  else
    let st := emit (.sigaction SIGTERM) st
    if env.sigactionRc SIGTERM < 0 then (-1, st)
    else (0, st)

/-! ## The configuration probe -/

/-- The disposable key written by `testConfig`. -/
def testKey : String := "sadf732zdvj2"

/-- The array `keys` of `testConfig`. -/
def keys : List String := ["Log.Level", "TRX.Port", "TRX.IP"]

/-- The query loop of `testConfig`: reads each key in turn and fails at the
first read that throws. -/
def queryLoop : List String → State → Int × State
  | [], st => (0, st)
  | k :: ks, st =>
    match st.gConfig.getStr k with
    | none => (-1, emit (.stderr ("Config: Failed query on " ++ k)) st)
    | some _ => queryLoop ks st

/-- The function `testConfig`. -/
def testConfig (env : Env) (filename : String) (st : State) : Int × State :=
  let val : Int := 9999
  let st := emit (.sqlite3_open filename) st
  if env.sqliteRc ≠ 0 ∨ env.dbHandle = false then
    (-1, emit (.stderr "Config: Database could not be opened") st)
  else
    let st := emit .sqlite3_close st
    let r := st.gConfig.set testKey val
    let st := { st with gConfig := r.2 }
    if r.1 = false then
      (-1, emit (.stderr
        ("Config: Failed to set test key - " ++ "permission to access the database?")) st)
    else
      let st := { st with gConfig := st.gConfig.remove testKey }
      queryLoop keys st

/-! ## The function `main` -/

/-- The locals of `main` that the argument switch assigns. -/
structure Locals where
  numARFCN : Int
  deviceArgs : String

/-- The body of `case 2` of the argument switch: parses the channel count and
leaves through `exit(-1)` when it exceeds `CHAN_MAX`.  The third component is
the exit code when the process ends here. -/
def caseTwo (b : Build) (arg1 : String) (loc : Locals) (st : State) :
    Locals × State × Option Int :=
  let loc := { loc with numARFCN := atoi arg1 }
  if loc.numARFCN > b.CHAN_MAX then
    (loc, emit (.log .ALERT
      (toString loc.numARFCN ++ " channels not supported " ++ " with with current build")) st,
      some (-1))
  else
    (loc, st, none)

/-- The statement `switch (argc)` of `main`, with its fall-through from
`case 3` into `case 2` into `case 1`.  The third component is the exit code
when the process ends inside the switch. -/
def argSwitch (b : Build) (env : Env) (st : State) : Locals × State × Option Int :=
  let loc : Locals := { numARFCN := 1, deviceArgs := "" }
  match env.args with
  | [] => (loc, st, none)
  | [arg1] => caseTwo b arg1 loc st
  | [arg1, arg2] => caseTwo b arg1 { loc with deviceArgs := arg2 } st
  | _ => (loc, emit (.stdout (env.argv0 ++ " <chans> <device args>")) st, some (-1))

/-- The values that the counter of `for (int i = 0; i < numARFCN; i++)` takes. -/
def chanIndices (numARFCN : Int) : List Nat := List.range numARFCN.toNat

/-- The spawn loop of `main` over the given counter values.  The flag in the
result is false when a worker was about to be stored beyond the end of the
array `trx`, which has `CHAN_MAX` slots. -/
def spawnLoop (b : Build) (trxPort : Int) (trxAddr : String) :
    List Nat → Bool → State → State × Bool
  | [], _, st => (st, true)
  | i :: rest, primary, st =>
    let st := emit (.newTransceiver (trxPort + 2 * (i : Int)) trxAddr b.SAMPSPERSYM i primary) st
    if (i : Int) < b.CHAN_MAX then
      let st := emit (.trxStart i) st
      spawnLoop b trxPort trxAddr rest false st
    else
      (st, false)

/-- The loop `while (!gbShutdown) sleep(1);`.  The budget bounds the number of
evaluations of the loop condition; the flag in the result tells whether the
loop was left.  `k` counts the sleeps performed so far. -/
def pollLoop (env : Env) : Nat → Nat → State → State × Bool
  | 0, _, st => (st, false)
  | fuel + 1, k, st =>
    let st := emit (.readShutdown st.gbShutdown) st
    if st.gbShutdown then (st, true)
    else
      let st := emit (.sleep 1) st
      let st := deliver (env.signalsDuringSleep k) st
      pollLoop env fuel (k + 1) st

/-- The loop `for (...) trx[i]->shutdown();`. -/
def shutdownLoop : List Nat → State → State
  | [], st => st
  | i :: rest, st => shutdownLoop rest (emit (.trxShutdown i) st)

/-- The loop `for (...) delete trx[i];`. -/
def deleteLoop : List Nat → State → State
  | [], st => st
  | i :: rest, st => deleteLoop rest (emit (.deleteTransceiver i) st)

/-- The statements of `main` after the polling loop. -/
def teardown (numARFCN : Int) (st : State) : State :=
  let st := emit (.log .NOTICE "Shutting down transceivers...") st
  let st := shutdownLoop (chanIndices numARFCN) st
  let st := emit (.sleep 2) st
  let st := deleteLoop (chanIndices numARFCN) st
  let st := emit .deleteDriveLoop st
  let st := emit .deleteRadioInterface st
  emit .deleteRadioDevice st

/-- The statements of `main` from the construction of the drive loop to the
end of the function. -/
def runChannels (b : Build) (env : Env) (fuel : Nat) (loc : Locals)
    (trxPort : Int) (trxAddr : String) (st : State) : Outcome :=
  let st := emit (.newDriveLoop trxPort trxAddr loc.numARFCN) st
  let st := emit .driveInit st
  let st := if env.driveInitOk = false then
      emit (.log .ALERT "Failed to initialize drive loop") st
    else st
  let r := spawnLoop b trxPort trxAddr (chanIndices loc.numARFCN) true st
  if r.2 = false then ⟨r.1, .outOfBounds⟩
  else
    let st := deliver env.signalsBeforePoll r.1
    let p := pollLoop env fuel 0 st
    if p.2 = false then ⟨p.1, .polling⟩
    else ⟨teardown loc.numARFCN p.1, .exited 0⟩

/-- The statements of `main` from the creation of the radio device on. -/
def openDevice (b : Build) (env : Env) (fuel : Nat) (loc : Locals)
    (trxPort : Int) (trxAddr : String) (st : State) : Outcome :=
  let st := emit (.deviceMake b.SAMPSPERSYM) st
  let st := emit (.deviceOpen loc.deviceArgs) st
  let radioType := env.radioType
  if radioType < 0 then
    ⟨emit (.log .ALERT "Failed to open device, exiting...") st, .exited EXIT_FAILURE⟩
  else if radioType = b.NORMAL then
    let st := emit (.newRadioInterface loc.numARFCN) st
    runChannels b env fuel loc trxPort trxAddr st
  else
    ⟨emit (.log .ALERT "Unsupported configuration") st, .exited EXIT_FAILURE⟩

/-- The statements of `main` that read the configuration and start the
logger.  A read that throws leaves `main` through the exception. -/
def configure (b : Build) (env : Env) (fuel : Nat) (loc : Locals) (st : State) : Outcome :=
  match st.gConfig.getStr "Log.Level" with
  | none => ⟨st, .aborted⟩
  | some logLevel =>
    match st.gConfig.getNum "TRX.Port" with
    | none => ⟨st, .aborted⟩
    | some trxPort =>
      match st.gConfig.getStr "TRX.IP" with
      | none => ⟨st, .aborted⟩
      | some trxAddr =>
        let st := emit (.gLogInit logLevel) st
        let st := emit .srandom st
        openDevice b env fuel loc trxPort trxAddr st

/-- The state in which `main` starts. -/
def initState (env : Env) : State :=
  { gbShutdown := false, gConfig := env.config, trace := [] }

/-- The function `main`.  `fuel` bounds the number of times the polling loop
evaluates its condition. -/
def main (b : Build) (env : Env) (fuel : Nat) : Outcome :=
  match argSwitch b env (initState env) with
  | (_, st, some code) => ⟨st, .exited code⟩
  | (loc, st, none) =>
    let r := setupSignals env st
    if r.1 < 0 then
      ⟨emit (.log .ERR "Failed to setup signal handlers, exiting...") r.2, .exited (-1)⟩
    else
      let t := testConfig env CONFIGDB r.2
      if t.1 < 0 then
        ⟨emit (.stderr "Config: Database failure") t.2, .exited EXIT_FAILURE⟩
      else
        configure b env fuel loc t.2

/-! ## Observations on traces -/

/-- Allocation of a device, a radio interface, a drive loop or a worker. -/
def Event.isAllocation : Event → Bool
  | .deviceMake _ => true
  | .newRadioInterface _ => true
  | .newDriveLoop _ _ _ => true
  | .newTransceiver _ _ _ _ _ => true
  | _ => false

/-- Construction or start of a worker. -/
def Event.isWorker : Event → Bool
  | .newTransceiver _ _ _ _ _ => true
  | .trxStart _ => true
  | _ => false

/-- A stop request to a worker. -/
def Event.isStop : Event → Bool
  | .trxShutdown _ => true
  | _ => false

/-- Deletion of a worker. -/
def Event.isDeleteWorker : Event → Bool
  | .deleteTransceiver _ => true
  | _ => false

/-- The channel index, control port and primary flag of a worker
construction; `none` for any other action. -/
def Event.worker? : Event → Option (Nat × Int × Bool)
  | .newTransceiver port _ _ chan primary => some (chan, port, primary)
  | _ => none

/-- The workers constructed in a trace, in order: channel index, control port
and primary flag of each. -/
def workersOf (tr : List Event) : List (Nat × Int × Bool) := tr.filterMap Event.worker?

/-- A stop request, or the deletion of a worker, of the drive loop, of the
radio interface or of the device. -/
def Event.isTeardown : Event → Bool
  | .trxShutdown _ => true
  | .deleteTransceiver _ => true
  | .deleteDriveLoop => true
  | .deleteRadioInterface => true
  | .deleteRadioDevice => true
  | _ => false

/-- Any action other than a teardown action and other than a read of the
shutdown flag that returns true. -/
def Event.isCalm : Event → Bool
  | .readShutdown true => false
  | e => !e.isTeardown

/-- The actions of the polling loop and of the signal handler. -/
def Event.isIdle : Event → Bool
  | .readShutdown false => true
  | .sleep _ => true
  | .log _ _ => true
  | _ => false

/-- The actions after the polling loop in closed form. -/
def teardownEvents (numARFCN : Int) : List Event :=
  [Event.log LogLevel.NOTICE "Shutting down transceivers..."] ++
    (chanIndices numARFCN).map Event.trxShutdown ++ [Event.sleep 2] ++
    (chanIndices numARFCN).map Event.deleteTransceiver ++
    [Event.deleteDriveLoop, Event.deleteRadioInterface, Event.deleteRadioDevice]

/-- In the trace every action that satisfies `p` comes before every action
that satisfies `q`: no `q` action is followed by a `p` action. -/
def Precedes (p q : Event → Bool) (tr : List Event) : Prop :=
  tr.Pairwise (fun x y => ¬ (q x = true ∧ p y = true))

/-- Reading the trace from its start, no action that satisfies `p` occurs
until an action that satisfies `g` has occurred. -/
def noneUntil (g p : Event → Bool) : List Event → Bool
  | [] => true
  | e :: rest => if g e then true else (!p e && noneUntil g p rest)

/-- A sample environment: a complete configuration, a device that opens in
the normal mode, a drive loop that initialises, and one signal during the
first sleep. -/
def sampleEnv (args : List String) : Env where
  argv0 := "trx"
  args := args
  sigactionRc := fun _ => 0
  sqliteRc := 0
  dbHandle := true
  config := {
    entries := fun k =>
      if k = "Log.Level" then some "NOTICE"
      else if k = "TRX.Port" then some "5700"
      else if k = "TRX.IP" then some "127.0.0.1"
      else none
    writable := true }
  radioType := 0
  driveInitOk := true
  signalsBeforePoll := []
  signalsDuringSleep := fun k => if k = 0 then [SIGTERM] else []

/-- A sample build with eight channels and the normal mode numbered 0. -/
def sampleBuild : Build where
  CHAN_MAX := 8
  SAMPSPERSYM := 1
  NORMAL := 0
  RESAMP := 1

/-! ## Closed forms, classes of actions and sample inputs used by the results -/

/-- The first required key, in the order of the array `keys`, whose read
throws. -/
def firstMissing (c : ConfigurationTable) : Option String :=
  keys.find? (fun k => (c.getStr k).isNone)

/-- Actions that occur before the radio device is created. -/
def Event.isEarly : Event → Bool
  | .stdout _ => true
  | .stderr _ => true
  | .log _ _ => true
  | .sigaction _ => true
  | .sqlite3_open _ => true
  | .sqlite3_close => true
  | .gLogInit _ => true
  | .srandom => true
  | _ => false

/-- A state in which the shutdown flag is false and only early actions have
been performed. -/
def Quiet (st : State) : Prop :=
  st.gbShutdown = false ∧ ∀ e ∈ st.trace, e.isEarly = true

/-- The actions of the spawn loop for a list of counter values when no store
leaves the array. -/
def spawnSeq (b : Build) (trxPort : Int) (trxAddr : String) : List Nat → Bool → List Event
  | [], _ => []
  | i :: rest, primary =>
    Event.newTransceiver (trxPort + 2 * (i : Int)) trxAddr b.SAMPSPERSYM i primary ::
      Event.trxStart i :: spawnSeq b trxPort trxAddr rest false

/-- The spawn loop in closed form: for each channel `i` below `n`, in
increasing order, a construction with port `trxPort + 2 * i`, channel index
`i` and the primary flag set exactly for `i = 0`, followed at once by the
start of that worker. -/
def spawnEvents (b : Build) (trxPort : Int) (trxAddr : String) (n : Nat) : List Event :=
  (List.range n).flatMap (fun (i : Nat) =>
    [Event.newTransceiver (trxPort + 2 * (i : Int)) trxAddr b.SAMPSPERSYM i (decide (i = 0)),
      Event.trxStart i])

/-- The actions `main` performs between the construction of the radio
interface and the end of the polling loop. -/
def Event.isRun : Event → Bool
  | .newDriveLoop _ _ _ => true
  | .driveInit => true
  | .log _ _ => true
  | .newTransceiver _ _ _ _ _ => true
  | .trxStart _ => true
  | .readShutdown false => true
  | .sleep _ => true
  | _ => false

/-- A configuration table that holds the three required keys and, besides,
an entry under the test key. -/
def occupiedConfig : ConfigurationTable where
  entries := fun k =>
    if k = "Log.Level" then some "NOTICE"
    else if k = "TRX.Port" then some "5700"
    else if k = "TRX.IP" then some "127.0.0.1"
    else if k = "sadf732zdvj2" then some "42"
    else none
  writable := true

/-- A writable configuration table that lacks the key `TRX.Port`. -/
def portlessConfig : ConfigurationTable where
  entries := fun k =>
    if k = "Log.Level" then some "NOTICE"
    else if k = "TRX.IP" then some "127.0.0.1"
    else none
  writable := true

/-- Construction of a radio interface, of a drive loop or of a worker. -/
def Event.isConstruction : Event → Bool
  | .newRadioInterface _ => true
  | .newDriveLoop _ _ _ => true
  | .newTransceiver _ _ _ _ _ => true
  | _ => false

/-- A sample environment whose device opens in a mode other than the normal
one. -/
def resampEnv : Env := { sampleEnv [] with radioType := 1 }

/-- The sample environment with a drive loop whose `init` returns false. -/
def faultyDriveEnv : Env := { sampleEnv [] with driveInitOk := false }

/-! ## Basic facts -/

@[simp] theorem emit_trace (e : Event) (st : State) : (emit e st).trace = st.trace ++ [e] := rfl

@[simp] theorem emit_gbShutdown (e : Event) (st : State) :
    (emit e st).gbShutdown = st.gbShutdown := rfl

@[simp] theorem emit_gConfig (e : Event) (st : State) : (emit e st).gConfig = st.gConfig := rfl

@[simp] theorem initState_trace (env : Env) : (initState env).trace = [] := rfl

@[simp] theorem initState_gConfig (env : Env) : (initState env).gConfig = env.config := rfl

@[simp] theorem initState_gbShutdown (env : Env) : (initState env).gbShutdown = false := rfl

/-! ## The signal handler -/

/-- C10 (amended): for every signal number the handler does two things: it
hands the logger the notice `Received shutdown signal` and it sets
`gbShutdown` to true.  The configuration table is untouched, the flag is true
afterwards whatever it was before, and running the handler for any list of
signals never turns a true flag back to false. -/
theorem sigHandler_effect (signum : Int) (st : State) (sigs : List Int) :
    sigHandler signum st =
      { gbShutdown := true, gConfig := st.gConfig,
        trace := st.trace ++ [Event.log LogLevel.NOTICE "Received shutdown signal"] } ∧
    (deliver sigs (sigHandler signum st)).gbShutdown = true := by
  refine ⟨rfl, ?_⟩
  have key : ∀ (l : List Int) (s : State), s.gbShutdown = true → (deliver l s).gbShutdown = true := by
    intro l
    induction l with
    | nil => intro s hs; exact hs
    | cons x xs ih => intro s _; exact ih _ rfl
  exact key sigs _ rfl

/-- C10 (counterexample): handling `SIGTERM` in the initial state of a run
leaves a log record in the trace, so setting the flag is not the only effect. -/
theorem sigHandler_logs :
    (sigHandler SIGTERM (initState (sampleEnv []))).trace =
        [Event.log LogLevel.NOTICE "Received shutdown signal"] ∧
      (sigHandler SIGTERM (initState (sampleEnv []))).trace ≠ (initState (sampleEnv [])).trace := by
  decide

/-! ## The argument switch -/

theorem exitStatus_neg_one : exitStatus (-1) ≠ 0 := by decide

theorem exitStatus_failure : exitStatus EXIT_FAILURE ≠ 0 := by decide

theorem caseTwo_reject (b : Build) (arg1 : String) (loc : Locals) (st : State)
    (h : atoi arg1 > b.CHAN_MAX) :
    caseTwo b arg1 loc st =
      ({ loc with numARFCN := atoi arg1 },
        emit (.log .ALERT
          (toString (atoi arg1) ++ " channels not supported " ++ " with with current build")) st,
        some (-1)) := by
  simp [caseTwo, h]

theorem caseTwo_accept (b : Build) (arg1 : String) (loc : Locals) (st : State)
    (h : atoi arg1 ≤ b.CHAN_MAX) :
    caseTwo b arg1 loc st = ({ loc with numARFCN := atoi arg1 }, st, none) := by
  simp [caseTwo, not_lt.mpr h]

/-- C2: when the command line has 2 or 3 arguments and the channel count
parses to a number above `CHAN_MAX`, `main` ends through `exit(-1)`, which is a
non-zero status, and the only action of the run is the alert record: nothing
was allocated, the device was neither made nor opened, and no handler was
installed. -/
theorem main_rejects_excess_channels (b : Build) (env : Env) (fuel : Nat)
    (arg1 : String) (more : List String)
    (hargs : env.args = arg1 :: more) (hargc : env.argc = 2 ∨ env.argc = 3)
    (hn : atoi arg1 > b.CHAN_MAX) :
    (main b env fuel).termination = .exited (-1) ∧
    exitStatus (-1) ≠ 0 ∧
    (main b env fuel).trace =
      [Event.log LogLevel.ALERT
        (toString (atoi arg1) ++ " channels not supported " ++ " with with current build")] ∧
    (main b env fuel).trace.countP Event.isAllocation = 0 ∧
    (∀ a, Event.deviceOpen a ∉ (main b env fuel).trace) := by
  have hsw : ∃ loc, argSwitch b env (initState env) =
      (loc, emit (.log .ALERT
          (toString (atoi arg1) ++ " channels not supported " ++ " with with current build"))
        (initState env), some (-1)) := by
    match more, hargs, hargc with
    | [], hargs, _ =>
      exact ⟨⟨atoi arg1, ""⟩, by simp [argSwitch, hargs, caseTwo_reject b arg1 _ _ hn]⟩
    | [arg2], hargs, _ =>
      exact ⟨⟨atoi arg1, arg2⟩, by simp [argSwitch, hargs, caseTwo_reject b arg1 _ _ hn]⟩
    | _ :: _ :: _, hargs, hargc => simp [Env.argc, hargs] at hargc
  obtain ⟨loc, hsw⟩ := hsw
  have hm : main b env fuel =
      ⟨emit (.log .ALERT
          (toString (atoi arg1) ++ " channels not supported " ++ " with with current build"))
        (initState env), .exited (-1)⟩ := by
    simp [main, hsw]
  refine ⟨by rw [hm], exitStatus_neg_one, by simp [hm, Outcome.trace], ?_, ?_⟩
  · simp [hm, Outcome.trace, Event.isAllocation]
  · intro a
    simp [hm, Outcome.trace]

/-- C2 (witness): with `CHAN_MAX = 8` the command line `trx 10` is rejected. -/
theorem main_rejects_excess_channels_witness :
    (main sampleBuild (sampleEnv ["10"]) 3).termination = .exited (-1) ∧
    (main sampleBuild (sampleEnv ["10"]) 3).trace.countP Event.isAllocation = 0 :=
  have h := main_rejects_excess_channels sampleBuild (sampleEnv ["10"]) 3 "10" [] rfl
    (Or.inl rfl) (by decide)
  ⟨h.1, h.2.2.2.1⟩

/-! ## The configuration probe -/

theorem testKey_not_required : ∀ k ∈ keys, k ≠ testKey := by decide

theorem queryLoop_gConfig (ks : List String) (st : State) :
    (queryLoop ks st).2.gConfig = st.gConfig := by
  induction ks with
  | nil => rfl
  | cons k ks ih =>
    unfold queryLoop
    cases st.gConfig.getStr k <;> simp [ih]

theorem queryLoop_gbShutdown (ks : List String) (st : State) :
    (queryLoop ks st).2.gbShutdown = st.gbShutdown := by
  induction ks with
  | nil => rfl
  | cons k ks ih =>
    unfold queryLoop
    cases st.gConfig.getStr k <;> simp [ih]

/-- The query loop in closed form: it fails at the first key whose read
throws and names that key, and succeeds silently when every read succeeds. -/
theorem queryLoop_eq (ks : List String) (st : State) :
    queryLoop ks st =
      match ks.find? (fun k => (st.gConfig.getStr k).isNone) with
      | some k => (-1, emit (.stderr ("Config: Failed query on " ++ k)) st)
      | none => (0, st) := by
  induction ks with
  | nil => rfl
  | cons k ks ih =>
    unfold queryLoop
    cases h : st.gConfig.getStr k <;> simp [List.find?, h, ih]

/-- The configuration table after an accepted write of the test key followed
by its removal. -/
theorem set_remove_entries (c : ConfigurationTable) (hw : c.writable = true) (val : Int) :
    ((c.set testKey val).2.remove testKey) =
      { entries := fun k => if k = testKey then none else c.entries k, writable := true } := by
  simp only [ConfigurationTable.set, hw, if_true, ConfigurationTable.remove]
  congr 1
  funext k
  by_cases hk : k = testKey <;> simp [hk]

theorem set_fst (c : ConfigurationTable) (key : String) (val : Int) :
    (c.set key val).1 = c.writable := by
  unfold ConfigurationTable.set
  cases c.writable <;> simp

theorem set_snd_of_rejected (c : ConfigurationTable) (key : String) (val : Int)
    (hw : c.writable = false) : (c.set key val).2 = c := by
  simp [ConfigurationTable.set, hw]

/-- `testConfig` when the database cannot be opened. -/
theorem testConfig_unopened (env : Env) (filename : String) (st : State)
    (h : env.sqliteRc ≠ 0 ∨ env.dbHandle = false) :
    testConfig env filename st =
      (-1, { st with trace := st.trace ++
        [.sqlite3_open filename, .stderr "Config: Database could not be opened"] }) := by
  simp [testConfig, h, emit]

/-- `testConfig` when the database opens and the write is rejected. -/
theorem testConfig_readonly (env : Env) (filename : String) (st : State)
    (h : ¬ (env.sqliteRc ≠ 0 ∨ env.dbHandle = false)) (hw : st.gConfig.writable = false) :
    testConfig env filename st =
      (-1, { st with trace := st.trace ++
        [.sqlite3_open filename, .sqlite3_close,
          .stderr ("Config: Failed to set test key - " ++ "permission to access the database?")] }) := by
  simp [testConfig, h, emit, set_fst, hw, set_snd_of_rejected]

/-- `testConfig` when the database opens and the write is accepted: the test
key is removed again and the query loop decides. -/
theorem testConfig_writable (env : Env) (filename : String) (st : State)
    (h : ¬ (env.sqliteRc ≠ 0 ∨ env.dbHandle = false)) (hw : st.gConfig.writable = true) :
    testConfig env filename st =
      queryLoop keys
        { gbShutdown := st.gbShutdown,
          gConfig := { entries := fun k => if k = testKey then none else st.gConfig.entries k,
                       writable := true },
          trace := st.trace ++ [.sqlite3_open filename, .sqlite3_close] } := by
  have hs := set_remove_entries st.gConfig hw 9999
  simp [testConfig, h, emit, set_fst, hw, hs]

theorem firstMissing_probed (c : ConfigurationTable) :
    keys.find? (fun k => (ConfigurationTable.getStr
      { entries := fun k => if k = testKey then none else c.entries k, writable := true } k).isNone)
      = firstMissing c := by
  simp [firstMissing, keys, ConfigurationTable.getStr, testKey, List.find?]

theorem firstMissing_some_iff (c : ConfigurationTable) :
    (∃ k, firstMissing c = some k) ↔ ∃ k ∈ keys, c.getStr k = none := by
  unfold firstMissing
  constructor
  · rintro ⟨k, hk⟩
    have h1 := List.find?_some hk
    have h2 := List.mem_of_find?_eq_some hk
    exact ⟨k, h2, by simpa using h1⟩
  · rintro ⟨k, hk, hn⟩
    cases h : keys.find? (fun k => (c.getStr k).isNone) with
    | some k2 => exact ⟨k2, rfl⟩
    | none =>
      have := List.find?_eq_none.mp h k hk
      simp [hn] at this

/-- The full result of `testConfig` once the database opened and the write
was accepted. -/
theorem testConfig_queried (env : Env) (filename : String) (st : State)
    (h : ¬ (env.sqliteRc ≠ 0 ∨ env.dbHandle = false)) (hw : st.gConfig.writable = true) :
    testConfig env filename st =
      match firstMissing st.gConfig with
      | some k =>
        (-1, { gbShutdown := st.gbShutdown,
               gConfig := { entries := fun k => if k = testKey then none else st.gConfig.entries k,
                            writable := true },
               trace := st.trace ++ [.sqlite3_open filename, .sqlite3_close,
                 .stderr ("Config: Failed query on " ++ k)] })
      | none =>
        (0, { gbShutdown := st.gbShutdown,
              gConfig := { entries := fun k => if k = testKey then none else st.gConfig.entries k,
                           writable := true },
              trace := st.trace ++ [.sqlite3_open filename, .sqlite3_close] }) := by
  rw [testConfig_writable env filename st h hw, queryLoop_eq]
  simp only [firstMissing_probed]
  cases firstMissing st.gConfig <;> simp [emit]

/-- The return value of `testConfig` as a function of the environment and the
configuration table alone. -/
theorem testConfig_fst (env : Env) (filename : String) (st : State) :
    (testConfig env filename st).1 =
      if env.sqliteRc ≠ 0 ∨ env.dbHandle = false then -1
      else if st.gConfig.writable = false then -1
      else match firstMissing st.gConfig with
        | some _ => -1
        | none => 0 := by
  by_cases h : env.sqliteRc ≠ 0 ∨ env.dbHandle = false
  · rw [testConfig_unopened env filename st h, if_pos h]
  · rw [if_neg h]
    by_cases hw : st.gConfig.writable = false
    · rw [testConfig_readonly env filename st h hw, if_pos hw]
    · rw [if_neg hw]
      have hw2 : st.gConfig.writable = true := by simpa using hw
      rw [testConfig_queried env filename st h hw2]
      cases firstMissing st.gConfig <;> rfl

theorem testConfig_fst_congr (env : Env) (filename : String) (st st2 : State)
    (h : st.gConfig = st2.gConfig) :
    (testConfig env filename st).1 = (testConfig env filename st2).1 := by
  rw [testConfig_fst, testConfig_fst, h]

/-! ## The start-up phases keep the run quiet -/

theorem quiet_init (env : Env) : Quiet (initState env) := by
  simp [Quiet]

theorem quiet_emit {st : State} {e : Event} (h : Quiet st) (he : e.isEarly = true) :
    Quiet (emit e st) := by
  refine ⟨h.1, ?_⟩
  intro x hx
  simp only [emit_trace, List.mem_append, List.mem_singleton] at hx
  rcases hx with hx | hx
  · exact h.2 x hx
  · rw [hx]; exact he

theorem quiet_append {st : State} (h : Quiet st) (evs : List Event)
    (he : ∀ e ∈ evs, e.isEarly = true) :
    Quiet { st with trace := st.trace ++ evs } := by
  refine ⟨h.1, ?_⟩
  intro x hx
  simp only [List.mem_append] at hx
  rcases hx with hx | hx
  · exact h.2 x hx
  · exact he x hx

theorem caseTwo_quiet (b : Build) (arg1 : String) (loc : Locals) (st : State) (h : Quiet st) :
    Quiet (caseTwo b arg1 loc st).2.1 ∧ (caseTwo b arg1 loc st).2.1.gConfig = st.gConfig ∧
    ((caseTwo b arg1 loc st).2.2 = none ∨ (caseTwo b arg1 loc st).2.2 = some (-1)) := by
  by_cases hn : atoi arg1 > b.CHAN_MAX
  · rw [caseTwo_reject b arg1 loc st hn]
    exact ⟨quiet_emit h rfl, rfl, Or.inr rfl⟩
  · rw [caseTwo_accept b arg1 loc st (not_lt.mp hn)]
    exact ⟨h, rfl, Or.inl rfl⟩

theorem argSwitch_quiet (b : Build) (env : Env) (st : State) (h : Quiet st) :
    Quiet (argSwitch b env st).2.1 ∧ (argSwitch b env st).2.1.gConfig = st.gConfig ∧
    ((argSwitch b env st).2.2 = none ∨ (argSwitch b env st).2.2 = some (-1)) := by
  unfold argSwitch
  split
  · exact ⟨h, rfl, Or.inl rfl⟩
  · exact caseTwo_quiet b _ _ st h
  · exact caseTwo_quiet b _ _ st h
  · exact ⟨quiet_emit h rfl, rfl, Or.inr rfl⟩

theorem setupSignals_quiet (env : Env) (st : State) (h : Quiet st) :
    Quiet (setupSignals env st).2 ∧ (setupSignals env st).2.gConfig = st.gConfig := by
  unfold setupSignals
  by_cases h1 : env.sigactionRc SIGINT < 0
  · simp only [h1, if_true]
    exact ⟨quiet_emit h rfl, rfl⟩
  · simp only [h1, if_false]
    by_cases h2 : env.sigactionRc SIGTERM < 0
    · simp only [h2, if_true]
      exact ⟨quiet_emit (quiet_emit h rfl) rfl, rfl⟩
    · simp only [h2, if_false]
      exact ⟨quiet_emit (quiet_emit h rfl) rfl, rfl⟩

theorem testConfig_quiet (env : Env) (filename : String) (st : State) (h : Quiet st) :
    Quiet (testConfig env filename st).2 := by
  by_cases hd : env.sqliteRc ≠ 0 ∨ env.dbHandle = false
  · rw [testConfig_unopened env filename st hd]
    exact quiet_append h _ (by simp [Event.isEarly])
  · by_cases hw : st.gConfig.writable = false
    · rw [testConfig_readonly env filename st hd hw]
      exact quiet_append h _ (by simp [Event.isEarly])
    · have hw2 : st.gConfig.writable = true := by simpa using hw
      rw [testConfig_queried env filename st hd hw2]
      cases firstMissing st.gConfig with
      | some k =>
        refine ⟨h.1, ?_⟩
        intro x hx
        simp only [List.mem_append] at hx
        rcases hx with hx | hx
        · exact h.2 x hx
        · simp at hx
          rcases hx with hx | hx | hx <;> simp [hx, Event.isEarly]
      | none =>
        refine ⟨h.1, ?_⟩
        intro x hx
        simp only [List.mem_append] at hx
        rcases hx with hx | hx
        · exact h.2 x hx
        · simp at hx
          rcases hx with hx | hx <;> simp [hx, Event.isEarly]

theorem present_of_firstMissing_none (c : ConfigurationTable) (h : firstMissing c = none) :
    ∃ logLevel port trxAddr,
      c.entries "Log.Level" = some logLevel ∧ c.entries "TRX.Port" = some port ∧
      c.entries "TRX.IP" = some trxAddr := by
  have hall := List.find?_eq_none.mp h
  have h1 := hall "Log.Level" (by decide)
  have h2 := hall "TRX.Port" (by decide)
  have h3 := hall "TRX.IP" (by decide)
  simp only [ConfigurationTable.getStr] at h1 h2 h3
  cases e1 : c.entries "Log.Level" with
  | none => simp [e1] at h1
  | some v1 =>
    cases e2 : c.entries "TRX.Port" with
    | none => simp [e2] at h2
    | some v2 =>
      cases e3 : c.entries "TRX.IP" with
      | none => simp [e3] at h3
      | some v3 => exact ⟨v1, v2, v3, rfl, rfl, rfl⟩

/-- After a successful probe the three reads of `main` succeed and the run
goes on to create the device. -/
theorem configure_of_present (b : Build) (env : Env) (fuel : Nat) (loc : Locals) (st : State)
    (c : ConfigurationTable)
    (hc : st.gConfig =
      { entries := fun k => if k = testKey then none else c.entries k, writable := true })
    (hm : firstMissing c = none) (hq : Quiet st) :
    ∃ st2 trxPort trxAddr, Quiet st2 ∧ c.getNum "TRX.Port" = some trxPort ∧
      c.getStr "TRX.IP" = some trxAddr ∧
      configure b env fuel loc st = openDevice b env fuel loc trxPort trxAddr st2 := by
  obtain ⟨v1, v2, v3, e1, e2, e3⟩ := present_of_firstMissing_none c hm
  refine ⟨emit .srandom (emit (.gLogInit v1) st), atoi v2, v3,
    quiet_emit (quiet_emit hq rfl) rfl, by simp [ConfigurationTable.getNum, e2],
    by simp [ConfigurationTable.getStr, e3], ?_⟩
  have g1 : st.gConfig.getStr "Log.Level" = some v1 := by
    simp [ConfigurationTable.getStr, hc, testKey, e1]
  have g2 : st.gConfig.getNum "TRX.Port" = some (atoi v2) := by
    simp [ConfigurationTable.getNum, hc, testKey, e2]
  have g3 : st.gConfig.getStr "TRX.IP" = some v3 := by
    simp [ConfigurationTable.getStr, hc, testKey, e3]
  simp [configure, g1, g2, g3]

/-- The two ways `main` can go before the device is created: either it ends
with a non-zero status having performed only early actions, or the argument
switch, the signal set-up and the configuration probe all passed and the run
continues with the creation of the device. -/
theorem main_prefix (b : Build) (env : Env) (fuel : Nat) :
    ((∃ code, (main b env fuel).termination = .exited code ∧ exitStatus code ≠ 0) ∧
      Quiet (main b env fuel).state ∧
      ((argSwitch b env (initState env)).2.2 ≠ none ∨ env.sigactionRc SIGINT < 0 ∨
        env.sigactionRc SIGTERM < 0 ∨ (testConfig env CONFIGDB (initState env)).1 = -1)) ∨
    (∃ st trxPort trxAddr, Quiet st ∧
      (testConfig env CONFIGDB (initState env)).1 = 0 ∧
      (argSwitch b env (initState env)).2.2 = none ∧
      env.config.getNum "TRX.Port" = some trxPort ∧
      env.config.getStr "TRX.IP" = some trxAddr ∧
      main b env fuel =
        openDevice b env fuel (argSwitch b env (initState env)).1 trxPort trxAddr st) := by
  obtain ⟨hq1, hc1, hcode⟩ := argSwitch_quiet b env _ (quiet_init env)
  rcases hsw : argSwitch b env (initState env) with ⟨loc, st1, code⟩
  rw [hsw] at hq1 hc1 hcode
  simp only at hq1 hc1 hcode
  cases code with
  | some code =>
    left
    have hcode2 : code = -1 := by
      rcases hcode with h | h
      · cases h
      · exact (Option.some.inj h)
    have hm : main b env fuel = ⟨st1, .exited code⟩ := by simp [main, hsw]
    rw [hm]
    exact ⟨⟨code, rfl, by rw [hcode2]; exact exitStatus_neg_one⟩, hq1, Or.inl (by simp)⟩
  | none =>
    obtain ⟨hq2, hc2⟩ := setupSignals_quiet env st1 hq1
    by_cases hs : (setupSignals env st1).1 < 0
    · left
      have hm : main b env fuel =
          ⟨emit (.log .ERR "Failed to setup signal handlers, exiting...")
            (setupSignals env st1).2, .exited (-1)⟩ := by
        simp [main, hsw, hs]
      rw [hm]
      refine ⟨⟨-1, rfl, exitStatus_neg_one⟩, quiet_emit hq2 rfl, Or.inr ?_⟩
      unfold setupSignals at hs
      by_cases h1 : env.sigactionRc SIGINT < 0
      · exact Or.inl h1
      · by_cases h2 : env.sigactionRc SIGTERM < 0
        · exact Or.inr (Or.inl h2)
        · simp [h1, h2] at hs
    · have hcfg : (setupSignals env st1).2.gConfig = (initState env).gConfig := by
        rw [hc2, hc1]
      have hfst := testConfig_fst_congr env CONFIGDB _ _ hcfg
      have hq3 := testConfig_quiet env CONFIGDB _ hq2
      by_cases ht : (testConfig env CONFIGDB (setupSignals env st1).2).1 < 0
      · left
        have hm : main b env fuel =
            ⟨emit (.stderr "Config: Database failure")
              (testConfig env CONFIGDB (setupSignals env st1).2).2, .exited EXIT_FAILURE⟩ := by
          simp [main, hsw, hs, ht]
        rw [hm]
        refine ⟨⟨EXIT_FAILURE, rfl, exitStatus_failure⟩, quiet_emit hq3 rfl, Or.inr (Or.inr (Or.inr ?_))⟩
        rw [← hfst]
        rw [testConfig_fst] at ht ⊢
        split_ifs at ht ⊢ <;> first | rfl | skip
        cases hfm : firstMissing (setupSignals env st1).2.gConfig with
        | some k => rfl
        | none => simp [hfm] at ht
      · right
        have hm : main b env fuel =
            configure b env fuel loc (testConfig env CONFIGDB (setupSignals env st1).2).2 := by
          simp [main, hsw, hs, ht]
        have hfst2 := testConfig_fst env CONFIGDB (setupSignals env st1).2
        rw [hfst2] at ht
        by_cases hd : env.sqliteRc ≠ 0 ∨ env.dbHandle = false
        · simp [hd] at ht
        · by_cases hw : (setupSignals env st1).2.gConfig.writable = false
          · simp [hd, hw] at ht
          · have hw2 : (setupSignals env st1).2.gConfig.writable = true := by simpa using hw
            cases hfm : firstMissing (setupSignals env st1).2.gConfig with
            | some k => simp [hd, hw, hfm] at ht
            | none =>
              have hres := testConfig_queried env CONFIGDB _ hd hw2
              rw [hfm] at hres
              simp only at hres
              have hq4 := hq3
              rw [hres] at hq4
              obtain ⟨st2, trxPort, trxAddr, hq5, hp, ha, hconf⟩ :=
                configure_of_present b env fuel loc _ (setupSignals env st1).2.gConfig rfl hfm hq4
              refine ⟨st2, trxPort, trxAddr, hq5, ?_, rfl, ?_, ?_, ?_⟩
              · rw [← hfst, hfst2, if_neg hd, if_neg hw, hfm]
              · rw [← hp, hcfg]; rfl
              · rw [← ha, hcfg]; rfl
              · rw [hm, hres]; exact hconf

/-! ## The spawn loop -/

theorem spawnLoop_inBounds (b : Build) (trxPort : Int) (trxAddr : String) (l : List Nat) :
    ∀ (primary : Bool) (st : State), (∀ i ∈ l, (i : Int) < b.CHAN_MAX) →
      spawnLoop b trxPort trxAddr l primary st =
        ({ st with trace := st.trace ++ spawnSeq b trxPort trxAddr l primary }, true) := by
  induction l with
  | nil => intro primary st _; simp [spawnLoop, spawnSeq]
  | cons i rest ih =>
    intro primary st h
    have hi : (i : Int) < b.CHAN_MAX := h i (List.mem_cons_self _ _)
    have hrest : ∀ j ∈ rest, (j : Int) < b.CHAN_MAX := fun j hj => h j (List.mem_cons_of_mem _ hj)
    simp [spawnLoop, spawnSeq, hi, ih false _ hrest, emit]

/-- Whatever the bound, the spawn loop only appends worker actions, and when
it completes it has appended the full sequence. -/
theorem spawnLoop_appends (b : Build) (trxPort : Int) (trxAddr : String) (l : List Nat) :
    ∀ (primary : Bool) (st : State),
      ∃ evs, (spawnLoop b trxPort trxAddr l primary st).1 =
          { st with trace := st.trace ++ evs } ∧
        (∀ e ∈ evs, e.isWorker = true) ∧
        ((spawnLoop b trxPort trxAddr l primary st).2 = true →
          evs = spawnSeq b trxPort trxAddr l primary) := by
  induction l with
  | nil => intro primary st; exact ⟨[], by simp [spawnLoop], by simp, fun _ => rfl⟩
  | cons i rest ih =>
    intro primary st
    by_cases hi : (i : Int) < b.CHAN_MAX
    · obtain ⟨evs, h1, h2, h3⟩ := ih false
        (emit (.trxStart i)
          (emit (.newTransceiver (trxPort + 2 * (i : Int)) trxAddr b.SAMPSPERSYM i primary) st))
      refine ⟨Event.newTransceiver (trxPort + 2 * (i : Int)) trxAddr b.SAMPSPERSYM i primary ::
        Event.trxStart i :: evs, ?_, ?_, ?_⟩
      · simp only [spawnLoop, hi, if_true]
        rw [h1]
        simp [emit]
      · intro e he
        simp only [List.mem_cons] at he
        rcases he with he | he | he
        · rw [he]; rfl
        · rw [he]; rfl
        · exact h2 e he
      · intro hok
        simp only [spawnLoop, hi, if_true] at hok
        simp [spawnSeq, h3 hok]
    · refine ⟨[Event.newTransceiver (trxPort + 2 * (i : Int)) trxAddr b.SAMPSPERSYM i primary],
        ?_, ?_, ?_⟩
      · simp [spawnLoop, hi, emit]
      · intro e he
        simp only [List.mem_singleton] at he
        rw [he]; rfl
      · intro hok
        simp [spawnLoop, hi] at hok

theorem workersOf_append (l1 l2 : List Event) :
    workersOf (l1 ++ l2) = workersOf l1 ++ workersOf l2 := by
  simp [workersOf, List.filterMap_append]

theorem workersOf_spawnSeq (b : Build) (trxPort : Int) (trxAddr : String) (l : List Nat) :
    ∀ primary, workersOf (spawnSeq b trxPort trxAddr l primary) =
      match l with
      | [] => []
      | i :: rest => (i, trxPort + 2 * (i : Int), primary) ::
          rest.map (fun (j : Nat) => (j, trxPort + 2 * (j : Int), false)) := by
  induction l with
  | nil => intro primary; rfl
  | cons i rest ih =>
    intro primary
    have h := ih false
    cases rest with
    | nil => simp [spawnSeq, workersOf, Event.worker?]
    | cons j more =>
      simp only [spawnSeq, workersOf, List.filterMap_cons, Event.worker?] at h ⊢
      simp [h]

theorem workersOf_spawnSeq_range (b : Build) (trxPort : Int) (trxAddr : String) (m : Nat) :
    workersOf (spawnSeq b trxPort trxAddr (List.range m) true) =
      (List.range m).map (fun (i : Nat) => (i, trxPort + 2 * (i : Int), decide (i = 0))) := by
  rw [workersOf_spawnSeq]
  cases m with
  | zero => rfl
  | succ k =>
    rw [List.range_succ_eq_map]
    simp [List.map_map, Function.comp_def]

theorem spawnSeq_false_eq (b : Build) (trxPort : Int) (trxAddr : String) (l : List Nat)
    (h : ∀ i ∈ l, i ≠ 0) :
    spawnSeq b trxPort trxAddr l false =
      l.flatMap (fun (i : Nat) =>
        [Event.newTransceiver (trxPort + 2 * (i : Int)) trxAddr b.SAMPSPERSYM i (decide (i = 0)),
          Event.trxStart i]) := by
  induction l with
  | nil => rfl
  | cons i rest ih =>
    have hi : i ≠ 0 := h i (List.mem_cons_self _ _)
    have hrest : ∀ j ∈ rest, j ≠ 0 := fun j hj => h j (List.mem_cons_of_mem _ hj)
    simp [spawnSeq, ih hrest, hi]

theorem spawnSeq_range (b : Build) (trxPort : Int) (trxAddr : String) (m : Nat) :
    spawnSeq b trxPort trxAddr (List.range m) true = spawnEvents b trxPort trxAddr m := by
  cases m with
  | zero => rfl
  | succ k =>
    unfold spawnEvents
    rw [List.range_succ_eq_map]
    have h : ∀ i ∈ List.map Nat.succ (List.range k), i ≠ 0 := by
      intro i hi
      simp only [List.mem_map] at hi
      obtain ⟨j, _, hj⟩ := hi
      omega
    simp [spawnSeq, spawnSeq_false_eq b trxPort trxAddr _ h]

theorem chanIndices_lt (n : Int) (bound : Int) (h : n ≤ bound) :
    ∀ i ∈ chanIndices n, (i : Int) < bound := by
  intro i hi
  simp only [chanIndices, List.mem_range] at hi
  omega

/-! ## Polling and teardown -/

theorem isRun_of_isIdle {e : Event} (h : e.isIdle = true) : e.isRun = true := by
  cases e <;> first | rfl | simp [Event.isIdle] at h
  case readShutdown v => cases v <;> first | rfl | simp [Event.isIdle] at h

theorem isRun_of_isWorker {e : Event} (h : e.isWorker = true) : e.isRun = true := by
  cases e <;> first | rfl | simp [Event.isWorker] at h

theorem isCalm_of_isRun {e : Event} (h : e.isRun = true) : e.isCalm = true := by
  cases e <;> first | rfl | simp [Event.isRun] at h
  case readShutdown v => cases v <;> first | rfl | simp [Event.isRun] at h

theorem isCalm_of_isEarly {e : Event} (h : e.isEarly = true) : e.isCalm = true := by
  cases e <;> first | rfl | simp [Event.isEarly] at h

theorem worker_none_of_isIdle {e : Event} (h : e.isIdle = true) : e.worker? = none := by
  cases e <;> first | rfl | simp [Event.isIdle] at h

theorem worker_none_of_isEarly {e : Event} (h : e.isEarly = true) : e.worker? = none := by
  cases e <;> first | rfl | simp [Event.isEarly] at h

theorem workersOf_eq_nil (l : List Event) (h : ∀ e ∈ l, e.worker? = none) : workersOf l = [] := by
  induction l with
  | nil => rfl
  | cons e rest ih =>
    have he := h e (List.mem_cons_self _ _)
    have hrest := ih (fun x hx => h x (List.mem_cons_of_mem _ hx))
    simp only [workersOf] at hrest ⊢
    simp [List.filterMap_cons, he, hrest]

theorem deliver_appends (sigs : List Int) :
    ∀ st : State, ∃ evs, deliver sigs st =
        { gbShutdown := (deliver sigs st).gbShutdown, gConfig := st.gConfig,
          trace := st.trace ++ evs } ∧
      ∀ e ∈ evs, e.isIdle = true := by
  induction sigs with
  | nil => intro st; exact ⟨[], by simp [deliver], by simp⟩
  | cons x xs ih =>
    intro st
    obtain ⟨evs, h1, h2⟩ := ih (sigHandler x st)
    refine ⟨Event.log LogLevel.NOTICE "Received shutdown signal" :: evs, ?_, ?_⟩
    · simp only [deliver]
      rw [h1]
      simp [sigHandler, emit]
    · intro e he
      simp only [List.mem_cons] at he
      rcases he with he | he
      · rw [he]; rfl
      · exact h2 e he

theorem pollLoop_appends (env : Env) (fuel : Nat) :
    ∀ (k : Nat) (st : State), ∃ evs, (∀ e ∈ evs, e.isIdle = true) ∧
      ((pollLoop env fuel k st).2 = false → (pollLoop env fuel k st).1.trace = st.trace ++ evs) ∧
      ((pollLoop env fuel k st).2 = true →
        (pollLoop env fuel k st).1.trace = st.trace ++ evs ++ [Event.readShutdown true]) := by
  induction fuel with
  | zero => intro k st; exact ⟨[], by simp, by simp [pollLoop], by simp [pollLoop]⟩
  | succ fuel ih =>
    intro k st
    cases hflag : st.gbShutdown with
    | true =>
      exact ⟨[], by simp, by simp [pollLoop, hflag], by simp [pollLoop, hflag]⟩
    | false =>
      obtain ⟨d, hd1, hd2⟩ := deliver_appends (env.signalsDuringSleep k)
        (emit (.sleep 1) (emit (.readShutdown false) st))
      obtain ⟨evs, h1, h2, h3⟩ := ih (k + 1)
        (deliver (env.signalsDuringSleep k) (emit (.sleep 1) (emit (.readShutdown false) st)))
      have htr : (deliver (env.signalsDuringSleep k)
          (emit (.sleep 1) (emit (.readShutdown false) st))).trace =
          st.trace ++ (Event.readShutdown false :: Event.sleep 1 :: d) := by
        rw [hd1]; simp
      have hstep : pollLoop env (fuel + 1) k st =
          pollLoop env fuel (k + 1) (deliver (env.signalsDuringSleep k)
            (emit (.sleep 1) (emit (.readShutdown false) st))) := by
        simp [pollLoop, hflag]
      refine ⟨Event.readShutdown false :: Event.sleep 1 :: d ++ evs, ?_, ?_, ?_⟩
      · intro e he
        simp only [List.cons_append, List.mem_cons, List.mem_append] at he
        rcases he with he | he | he | he
        · rw [he]; rfl
        · rw [he]; rfl
        · exact hd2 e he
        · exact h1 e he
      · intro hf
        rw [hstep] at hf ⊢
        rw [h2 hf, htr]
        simp
      · intro hf
        rw [hstep] at hf ⊢
        rw [h3 hf, htr]
        simp

theorem shutdownLoop_eq (l : List Nat) :
    ∀ st : State, shutdownLoop l st =
      { st with trace := st.trace ++ l.map Event.trxShutdown } := by
  induction l with
  | nil => intro st; simp [shutdownLoop]
  | cons i rest ih => intro st; simp [shutdownLoop, ih, emit]

theorem deleteLoop_eq (l : List Nat) :
    ∀ st : State, deleteLoop l st =
      { st with trace := st.trace ++ l.map Event.deleteTransceiver } := by
  induction l with
  | nil => intro st; simp [deleteLoop]
  | cons i rest ih => intro st; simp [deleteLoop, ih, emit]

theorem teardown_trace (numARFCN : Int) (st : State) :
    (teardown numARFCN st).trace = st.trace ++ teardownEvents numARFCN := by
  simp [teardown, teardownEvents, shutdownLoop_eq, deleteLoop_eq, emit]

/-! ## The run from the drive loop on -/

/-- The three ways the part of `main` after the construction of the radio
interface can go: a store beyond the array, a polling loop that has not yet
seen the flag, or a complete teardown. -/
theorem runChannels_spec (b : Build) (env : Env) (fuel : Nat) (loc : Locals)
    (trxPort : Int) (trxAddr : String) (st : State) :
    ∃ mid, (∀ e ∈ mid, e.isRun = true) ∧
      Event.newDriveLoop trxPort trxAddr loc.numARFCN ∈ mid ∧
      (((runChannels b env fuel loc trxPort trxAddr st).termination = .outOfBounds ∧
          (runChannels b env fuel loc trxPort trxAddr st).trace = st.trace ++ mid ∧
          ¬ loc.numARFCN ≤ b.CHAN_MAX) ∨
        (workersOf mid = workersOf (spawnSeq b trxPort trxAddr (chanIndices loc.numARFCN) true) ∧
          (((runChannels b env fuel loc trxPort trxAddr st).termination = .polling ∧
              (runChannels b env fuel loc trxPort trxAddr st).trace = st.trace ++ mid) ∨
            ((runChannels b env fuel loc trxPort trxAddr st).termination = .exited 0 ∧
              (runChannels b env fuel loc trxPort trxAddr st).trace =
                st.trace ++ mid ++ Event.readShutdown true :: teardownEvents loc.numARFCN)))) := by
  -- the state in which the spawn loop starts
  obtain ⟨a, ha1, ha2⟩ : ∃ a : List Event, (∀ e ∈ a, e.isIdle = true) ∧
      (if env.driveInitOk = false then
          emit (.log .ALERT "Failed to initialize drive loop")
            (emit .driveInit (emit (.newDriveLoop trxPort trxAddr loc.numARFCN) st))
        else emit .driveInit (emit (.newDriveLoop trxPort trxAddr loc.numARFCN) st)) =
        { st with trace := st.trace ++
            (Event.newDriveLoop trxPort trxAddr loc.numARFCN :: Event.driveInit :: a) } := by
    cases env.driveInitOk with
    | false =>
      exact ⟨[Event.log LogLevel.ALERT "Failed to initialize drive loop"],
        by simp [Event.isIdle], by simp [emit]⟩
    | true => exact ⟨[], by simp, by simp [emit]⟩
  have hrun : runChannels b env fuel loc trxPort trxAddr st =
      (let r := spawnLoop b trxPort trxAddr (chanIndices loc.numARFCN) true
          { st with trace := st.trace ++
            (Event.newDriveLoop trxPort trxAddr loc.numARFCN :: Event.driveInit :: a) }
       if r.2 = false then ⟨r.1, .outOfBounds⟩
       else
         let p := pollLoop env fuel 0 (deliver env.signalsBeforePoll r.1)
         if p.2 = false then ⟨p.1, .polling⟩
         else ⟨teardown loc.numARFCN p.1, .exited 0⟩) := by
    unfold runChannels
    simp only [ha2]
  obtain ⟨sp, hs1, hs2, hs3⟩ := spawnLoop_appends b trxPort trxAddr (chanIndices loc.numARFCN) true
    { st with trace := st.trace ++
      (Event.newDriveLoop trxPort trxAddr loc.numARFCN :: Event.driveInit :: a) }
  have hrunA : ∀ e ∈ Event.newDriveLoop trxPort trxAddr loc.numARFCN :: Event.driveInit :: a,
      e.isRun = true := by
    intro e he
    simp only [List.mem_cons] at he
    rcases he with he | he | he
    · rw [he]; rfl
    · rw [he]; rfl
    · exact isRun_of_isIdle (ha1 e he)
  have hwA : workersOf (Event.newDriveLoop trxPort trxAddr loc.numARFCN :: Event.driveInit :: a)
      = [] := by
    apply workersOf_eq_nil
    intro e he
    simp only [List.mem_cons] at he
    rcases he with he | he | he
    · rw [he]; rfl
    · rw [he]; rfl
    · exact worker_none_of_isIdle (ha1 e he)
  simp only at hs1
  by_cases hok : (spawnLoop b trxPort trxAddr (chanIndices loc.numARFCN) true
      { st with trace := st.trace ++
        (Event.newDriveLoop trxPort trxAddr loc.numARFCN :: Event.driveInit :: a) }).2 = false
  · refine ⟨(Event.newDriveLoop trxPort trxAddr loc.numARFCN :: Event.driveInit :: a) ++ sp,
      ?_, by simp, Or.inl ⟨?_, ?_, ?_⟩⟩
    · intro e he
      rcases List.mem_append.mp he with he | he
      · exact hrunA e he
      · exact isRun_of_isWorker (hs2 e he)
    · simp only [hrun, if_pos hok]
    · simp only [hrun, if_pos hok, Outcome.trace, hs1, List.append_assoc]
    · intro hle
      rw [spawnLoop_inBounds b trxPort trxAddr _ true _ (chanIndices_lt _ _ hle)] at hok
      simp at hok
  · have hok2 : (spawnLoop b trxPort trxAddr (chanIndices loc.numARFCN) true
        { st with trace := st.trace ++
          (Event.newDriveLoop trxPort trxAddr loc.numARFCN :: Event.driveInit :: a) }).2 = true := by
      simpa using hok
    have hsp := hs3 hok2
    obtain ⟨d, hd1, hd2⟩ := deliver_appends env.signalsBeforePoll
      (spawnLoop b trxPort trxAddr (chanIndices loc.numARFCN) true
        { st with trace := st.trace ++
          (Event.newDriveLoop trxPort trxAddr loc.numARFCN :: Event.driveInit :: a) }).1
    obtain ⟨pe, hp1, hp2, hp3⟩ := pollLoop_appends env fuel 0
      (deliver env.signalsBeforePoll
        (spawnLoop b trxPort trxAddr (chanIndices loc.numARFCN) true
          { st with trace := st.trace ++
            (Event.newDriveLoop trxPort trxAddr loc.numARFCN :: Event.driveInit :: a) }).1)
    have hdtr : (deliver env.signalsBeforePoll
        (spawnLoop b trxPort trxAddr (chanIndices loc.numARFCN) true
          { st with trace := st.trace ++
            (Event.newDriveLoop trxPort trxAddr loc.numARFCN :: Event.driveInit :: a) }).1).trace =
        st.trace ++ ((Event.newDriveLoop trxPort trxAddr loc.numARFCN :: Event.driveInit :: a)
          ++ sp ++ d) := by
      rw [hd1]
      simp only [hs1, List.append_assoc]
    refine ⟨(Event.newDriveLoop trxPort trxAddr loc.numARFCN :: Event.driveInit :: a)
        ++ sp ++ d ++ pe, ?_, by simp, Or.inr ⟨?_, ?_⟩⟩
    · intro e he
      simp only [List.mem_append] at he
      rcases he with ((he | he) | he) | he
      · exact hrunA e he
      · exact isRun_of_isWorker (hs2 e he)
      · exact isRun_of_isIdle (hd2 e he)
      · exact isRun_of_isIdle (hp1 e he)
    · rw [workersOf_append, workersOf_append, workersOf_append, hwA,
        workersOf_eq_nil d (fun e he => worker_none_of_isIdle (hd2 e he)),
        workersOf_eq_nil pe (fun e he => worker_none_of_isIdle (hp1 e he)), hsp]
      simp
    · by_cases hpoll : (pollLoop env fuel 0
          (deliver env.signalsBeforePoll
            (spawnLoop b trxPort trxAddr (chanIndices loc.numARFCN) true
              { st with trace := st.trace ++
                (Event.newDriveLoop trxPort trxAddr loc.numARFCN :: Event.driveInit :: a) }).1)).2
          = false
      · left
        refine ⟨?_, ?_⟩
        · simp only [hrun, if_neg hok, if_pos hpoll]
        · simp only [hrun, if_neg hok, if_pos hpoll, Outcome.trace]
          rw [hp2 hpoll, hdtr]
          simp only [List.append_assoc]
      · right
        have hpoll2 : (pollLoop env fuel 0
            (deliver env.signalsBeforePoll
              (spawnLoop b trxPort trxAddr (chanIndices loc.numARFCN) true
                { st with trace := st.trace ++
                  (Event.newDriveLoop trxPort trxAddr loc.numARFCN :: Event.driveInit :: a) }).1)).2
            = true := by simpa using hpoll
        refine ⟨?_, ?_⟩
        · simp only [hrun, if_neg hok, if_neg hpoll]
        · simp only [hrun, if_neg hok, if_neg hpoll, Outcome.trace]
          rw [teardown_trace, hp3 hpoll2, hdtr]
          simp only [List.append_assoc, List.singleton_append]

/-! ## The device -/

theorem openDevice_failed (b : Build) (env : Env) (fuel : Nat) (loc : Locals)
    (trxPort : Int) (trxAddr : String) (st : State) (h : env.radioType < 0) :
    openDevice b env fuel loc trxPort trxAddr st =
      ⟨{ st with trace := st.trace ++
          [Event.deviceMake b.SAMPSPERSYM, Event.deviceOpen loc.deviceArgs,
            Event.log LogLevel.ALERT "Failed to open device, exiting..."] },
        .exited EXIT_FAILURE⟩ := by
  simp [openDevice, h, emit]

theorem openDevice_unsupported (b : Build) (env : Env) (fuel : Nat) (loc : Locals)
    (trxPort : Int) (trxAddr : String) (st : State)
    (h1 : ¬ env.radioType < 0) (h2 : env.radioType ≠ b.NORMAL) :
    openDevice b env fuel loc trxPort trxAddr st =
      ⟨{ st with trace := st.trace ++
          [Event.deviceMake b.SAMPSPERSYM, Event.deviceOpen loc.deviceArgs,
            Event.log LogLevel.ALERT "Unsupported configuration"] },
        .exited EXIT_FAILURE⟩ := by
  simp only [openDevice, if_neg h1, if_neg h2]
  simp [emit]

theorem openDevice_normal (b : Build) (env : Env) (fuel : Nat) (loc : Locals)
    (trxPort : Int) (trxAddr : String) (st : State)
    (h1 : ¬ env.radioType < 0) (h2 : env.radioType = b.NORMAL) :
    openDevice b env fuel loc trxPort trxAddr st =
      runChannels b env fuel loc trxPort trxAddr
        { st with trace := st.trace ++
          [Event.deviceMake b.SAMPSPERSYM, Event.deviceOpen loc.deviceArgs,
            Event.newRadioInterface loc.numARFCN] } := by
  simp only [openDevice, if_neg h1, if_pos h2]
  simp [emit]

/-- Every run of `main` has one of six shapes.  `pre` holds the actions
before the device is created. -/
theorem main_cases (b : Build) (env : Env) (fuel : Nat) :
    ∃ pre, (∀ e ∈ pre, e.isEarly = true) ∧
      (((main b env fuel).trace = pre ∧
          (∃ code, (main b env fuel).termination = .exited code ∧ exitStatus code ≠ 0) ∧
          ((argSwitch b env (initState env)).2.2 ≠ none ∨ env.sigactionRc SIGINT < 0 ∨
            env.sigactionRc SIGTERM < 0 ∨ (testConfig env CONFIGDB (initState env)).1 = -1)) ∨
        (∃ trxPort trxAddr,
          (testConfig env CONFIGDB (initState env)).1 = 0 ∧
          (argSwitch b env (initState env)).2.2 = none ∧
          env.config.getNum "TRX.Port" = some trxPort ∧
          env.config.getStr "TRX.IP" = some trxAddr ∧
          ((env.radioType < 0 ∧ (main b env fuel).termination = .exited EXIT_FAILURE ∧
              (main b env fuel).trace = pre ++
                [Event.deviceMake b.SAMPSPERSYM,
                  Event.deviceOpen (argSwitch b env (initState env)).1.deviceArgs,
                  Event.log LogLevel.ALERT "Failed to open device, exiting..."]) ∨
            (0 ≤ env.radioType ∧ env.radioType ≠ b.NORMAL ∧
              (main b env fuel).termination = .exited EXIT_FAILURE ∧
              (main b env fuel).trace = pre ++
                [Event.deviceMake b.SAMPSPERSYM,
                  Event.deviceOpen (argSwitch b env (initState env)).1.deviceArgs,
                  Event.log LogLevel.ALERT "Unsupported configuration"]) ∨
            (0 ≤ env.radioType ∧ env.radioType = b.NORMAL ∧
              ∃ mid, (∀ e ∈ mid, e.isRun = true) ∧
                Event.newDriveLoop trxPort trxAddr
                  (argSwitch b env (initState env)).1.numARFCN ∈ mid ∧
                (((main b env fuel).termination = .outOfBounds ∧
                    (main b env fuel).trace = pre ++
                      [Event.deviceMake b.SAMPSPERSYM,
                        Event.deviceOpen (argSwitch b env (initState env)).1.deviceArgs,
                        Event.newRadioInterface (argSwitch b env (initState env)).1.numARFCN]
                      ++ mid ∧
                    ¬ (argSwitch b env (initState env)).1.numARFCN ≤ b.CHAN_MAX) ∨
                  (workersOf mid = workersOf (spawnSeq b trxPort trxAddr
                      (chanIndices (argSwitch b env (initState env)).1.numARFCN) true) ∧
                    (((main b env fuel).termination = .polling ∧
                        (main b env fuel).trace = pre ++
                          [Event.deviceMake b.SAMPSPERSYM,
                            Event.deviceOpen (argSwitch b env (initState env)).1.deviceArgs,
                            Event.newRadioInterface (argSwitch b env (initState env)).1.numARFCN]
                          ++ mid) ∨
                      ((main b env fuel).termination = .exited 0 ∧
                        (main b env fuel).trace = pre ++
                          [Event.deviceMake b.SAMPSPERSYM,
                            Event.deviceOpen (argSwitch b env (initState env)).1.deviceArgs,
                            Event.newRadioInterface (argSwitch b env (initState env)).1.numARFCN]
                          ++ mid ++ Event.readShutdown true ::
                            teardownEvents (argSwitch b env (initState env)).1.numARFCN)))))))) := by
  rcases main_prefix b env fuel with ⟨hex, hq, hwhy⟩ | ⟨st, trxPort, trxAddr, hq, htc, hsw, hp, ha, hm⟩
  · exact ⟨(main b env fuel).trace, hq.2, Or.inl ⟨rfl, hex, hwhy⟩⟩
  · refine ⟨st.trace, hq.2, Or.inr ⟨trxPort, trxAddr, htc, hsw, hp, ha, ?_⟩⟩
    by_cases h1 : env.radioType < 0
    · left
      rw [hm, openDevice_failed b env fuel _ trxPort trxAddr st h1]
      exact ⟨h1, rfl, rfl⟩
    · by_cases h2 : env.radioType = b.NORMAL
      · right; right
        refine ⟨not_lt.mp h1, h2, ?_⟩
        rw [hm, openDevice_normal b env fuel _ trxPort trxAddr st h1 h2]
        obtain ⟨mid, hmid, hdl, hcases⟩ := runChannels_spec b env fuel
          (argSwitch b env (initState env)).1 trxPort trxAddr
          { st with trace := st.trace ++
            [Event.deviceMake b.SAMPSPERSYM,
              Event.deviceOpen (argSwitch b env (initState env)).1.deviceArgs,
              Event.newRadioInterface (argSwitch b env (initState env)).1.numARFCN] }
        exact ⟨mid, hmid, hdl, hcases⟩
      · right; left
        rw [hm, openDevice_unsupported b env fuel _ trxPort trxAddr st h1 h2]
        exact ⟨not_lt.mp h1, h2, rfl, rfl⟩

/-! ## Results on the configuration probe -/

theorem isWorker_false_of_isEarly {e : Event} (h : e.isEarly = true) : e.isWorker = false := by
  cases e <;> first | rfl | simp [Event.isEarly] at h

/-- C7: `testConfig` returns -1 exactly when the database cannot be opened,
or the write of the test key is rejected, or one of the keys `Log.Level`,
`TRX.Port`, `TRX.IP` cannot be read, and it returns 0 otherwise.  When the
database opens, the write is accepted and `k` is the first of the three keys
that cannot be read, the probe writes `Config: Failed query on k` to standard
error and nothing after it.  Whenever the probe, called on the configuration
table with which the run starts, fails, `main` ends with a non-zero status and
its trace holds neither the construction nor the start of a worker. -/
theorem testConfig_verdict (b : Build) (env : Env) (fuel : Nat) (filename : String)
    (st : State) :
    ((testConfig env filename st).1 = -1 ↔
      ((env.sqliteRc ≠ 0 ∨ env.dbHandle = false) ∨ (st.gConfig.set testKey 9999).1 = false ∨
        ∃ k ∈ keys, st.gConfig.getStr k = none)) ∧
    ((testConfig env filename st).1 ≠ -1 → (testConfig env filename st).1 = 0) ∧
    (∀ k, ¬ (env.sqliteRc ≠ 0 ∨ env.dbHandle = false) → (st.gConfig.set testKey 9999).1 = true →
      keys.find? (fun k => (st.gConfig.getStr k).isNone) = some k →
      (testConfig env filename st).2.trace = st.trace ++
        [Event.sqlite3_open filename, Event.sqlite3_close,
          Event.stderr ("Config: Failed query on " ++ k)]) ∧
    (st.gConfig = env.config → (testConfig env CONFIGDB st).1 = -1 →
      (∃ code, (main b env fuel).termination = .exited code ∧ exitStatus code ≠ 0) ∧
      ∀ e ∈ (main b env fuel).trace, e.isWorker = false) := by
  refine ⟨?_, ?_, ?_, ?_⟩
  · rw [testConfig_fst, set_fst]
    by_cases hd : env.sqliteRc ≠ 0 ∨ env.dbHandle = false
    · simp [hd]
    · by_cases hw : st.gConfig.writable = false
      · simp [hd, hw]
      · rw [if_neg hd, if_neg hw]
        have hiff := firstMissing_some_iff st.gConfig
        cases hfm : firstMissing st.gConfig with
        | some k =>
          have hex : ∃ k ∈ keys, st.gConfig.getStr k = none := hiff.mp ⟨k, hfm⟩
          simp only [true_iff]
          exact Or.inr (Or.inr hex)
        | none =>
          have hnex : ¬ ∃ k ∈ keys, st.gConfig.getStr k = none := by
            intro hex
            obtain ⟨k, hk⟩ := hiff.mpr hex
            rw [hfm] at hk
            cases hk
          constructor
          · intro h; simp at h
          · rintro (h | h | h)
            · exact absurd h hd
            · exact absurd h hw
            · exact absurd h hnex
  · rw [testConfig_fst]
    split_ifs
    · simp
    · simp
    · cases firstMissing st.gConfig <;> simp
  · intro k hd hw hk
    rw [set_fst] at hw
    rw [testConfig_queried env filename st hd hw]
    have hfm : firstMissing st.gConfig = some k := hk
    rw [hfm]
  · intro hst hfail
    rw [testConfig_fst_congr env CONFIGDB st (initState env) hst] at hfail
    obtain ⟨pre, hpre, hcase⟩ := main_cases b env fuel
    rcases hcase with ⟨htr, hex, _⟩ | ⟨_, _, htc, _⟩
    · refine ⟨hex, ?_⟩
      intro e he
      rw [htr] at he
      exact isWorker_false_of_isEarly (hpre e he)
    · rw [hfail] at htc
      simp at htc

/-- C7 (witness): with the key `TRX.Port` missing, the probe returns -1,
names that key, and `main` ends with status 1 without any worker. -/
theorem testConfig_verdict_witness :
    (testConfig { sampleEnv [] with config := portlessConfig } CONFIGDB
        (initState { sampleEnv [] with config := portlessConfig })).2.trace =
      [Event.sqlite3_open CONFIGDB, Event.sqlite3_close,
        Event.stderr "Config: Failed query on TRX.Port"] ∧
    ((∃ code, (main sampleBuild { sampleEnv [] with config := portlessConfig } 3).termination
        = .exited code ∧ exitStatus code ≠ 0) ∧
      ∀ e ∈ (main sampleBuild { sampleEnv [] with config := portlessConfig } 3).trace,
        e.isWorker = false) :=
  have h := testConfig_verdict sampleBuild { sampleEnv [] with config := portlessConfig } 3
    CONFIGDB (initState { sampleEnv [] with config := portlessConfig })
  ⟨h.2.2.1 "TRX.Port" (by decide) (by decide) (by decide), h.2.2.2 rfl (by decide)⟩

/-- C8 (amended): when the configuration table holds no entry under the test
key before the call, the table after `testConfig` is the table before it,
whether the probe succeeds or fails: the test key is not left behind and no
entry is added, changed or removed. -/
theorem testConfig_restores (env : Env) (filename : String) (st : State)
    (h : st.gConfig.entries testKey = none) :
    (testConfig env filename st).2.gConfig = st.gConfig := by
  by_cases hd : env.sqliteRc ≠ 0 ∨ env.dbHandle = false
  · rw [testConfig_unopened env filename st hd]
  · by_cases hw : st.gConfig.writable = false
    · rw [testConfig_readonly env filename st hd hw]
    · have hw2 : st.gConfig.writable = true := by simpa using hw
      rw [testConfig_writable env filename st hd hw2, queryLoop_gConfig]
      have hent : (fun k => if k = testKey then none else st.gConfig.entries k)
          = st.gConfig.entries := by
        funext k
        by_cases hk : k = testKey
        · simp [hk, h]
        · simp [hk]
      cases hc : st.gConfig with
      | mk entries writable =>
        rw [hc] at hent hw2
        simp only at hent hw2
        simp only [hent, hw2]

/-- C8 (witness): the sample configuration holds no entry under the test key,
and the probe leaves it as it was. -/
theorem testConfig_restores_witness :
    (testConfig (sampleEnv []) CONFIGDB (initState (sampleEnv []))).2.gConfig =
      (sampleEnv []).config :=
  testConfig_restores (sampleEnv []) CONFIGDB (initState (sampleEnv [])) (by decide)

/-- C8 (counterexample): a table that already holds an entry under the test
key has lost that entry after a successful probe, so the table is not the one
it was before the call. -/
theorem testConfig_drops_existing_entry :
    (initState { sampleEnv [] with config := occupiedConfig }).gConfig.entries testKey
      = some "42" ∧
    (testConfig { sampleEnv [] with config := occupiedConfig } CONFIGDB
        (initState { sampleEnv [] with config := occupiedConfig })).1 = 0 ∧
    (testConfig { sampleEnv [] with config := occupiedConfig } CONFIGDB
        (initState { sampleEnv [] with config := occupiedConfig })).2.gConfig.entries testKey
      = none := by
  decide

/-! ## Results on the argument switch and the device -/

theorem isConstruction_false_of_isEarly {e : Event} (h : e.isEarly = true) :
    e.isConstruction = false := by
  cases e <;> first | rfl | simp [Event.isEarly] at h

theorem not_deviceOpen_of_isEarly {e : Event} (h : e.isEarly = true) (a : String) :
    e ≠ Event.deviceOpen a := by
  cases e <;> simp [Event.isEarly] at h ⊢

theorem not_deviceOpen_of_isRun {e : Event} (h : e.isRun = true) (a : String) :
    e ≠ Event.deviceOpen a := by
  cases e <;> simp [Event.isRun] at h ⊢

theorem not_newRadioInterface_of_isEarly {e : Event} (h : e.isEarly = true) (n : Int) :
    e ≠ Event.newRadioInterface n := by
  cases e <;> simp [Event.isEarly] at h ⊢

theorem not_newRadioInterface_of_isRun {e : Event} (h : e.isRun = true) (n : Int) :
    e ≠ Event.newRadioInterface n := by
  cases e <;> simp [Event.isRun] at h ⊢

theorem not_teardown_of_isRun {e : Event} (h : e.isRun = true) : e.isTeardown = false := by
  cases e <;> first | rfl | simp [Event.isRun] at h

theorem not_deviceOpen_of_teardown (n : Int) (a : String) :
    Event.deviceOpen a ∉ teardownEvents n := by
  simp [teardownEvents]

theorem not_newRadioInterface_of_teardown (n m : Int) :
    Event.newRadioInterface m ∉ teardownEvents n := by
  simp [teardownEvents]

/-- Every opening of the device in a run of `main` passes the device arguments
that the argument switch left in `deviceArgs`, and every radio interface is
constructed for the channel count that it left in `numARFCN`. -/
theorem main_uses_locals (b : Build) (env : Env) (fuel : Nat) :
    (∀ a, Event.deviceOpen a ∈ (main b env fuel).trace →
      a = (argSwitch b env (initState env)).1.deviceArgs ∧
        (argSwitch b env (initState env)).2.2 = none) ∧
    (∀ n, Event.newRadioInterface n ∈ (main b env fuel).trace →
      n = (argSwitch b env (initState env)).1.numARFCN ∧
        0 ≤ env.radioType ∧ env.radioType = b.NORMAL) := by
  obtain ⟨pre, hpre, hcase⟩ := main_cases b env fuel
  have hpreO : ∀ a, Event.deviceOpen a ∉ pre :=
    fun a hmem => not_deviceOpen_of_isEarly (hpre _ hmem) a rfl
  have hpreR : ∀ n, Event.newRadioInterface n ∉ pre :=
    fun n hmem => not_newRadioInterface_of_isEarly (hpre _ hmem) n rfl
  rcases hcase with ⟨htr, _, _⟩ | ⟨trxPort, trxAddr, _, hsw, _, _, hdev⟩
  · rw [htr]
    exact ⟨fun a ha => absurd ha (hpreO a), fun n hn => absurd hn (hpreR n)⟩
  · rcases hdev with ⟨_, _, htr⟩ | ⟨_, _, _, htr⟩ | ⟨h0, hN, mid, hmid, _, hrun⟩
    · rw [htr]
      constructor
      · intro a ha
        simp only [List.mem_append, List.mem_cons, List.mem_singleton] at ha
        rcases ha with ha | ha | ha | ha | ha
        · exact absurd ha (hpreO a)
        · cases ha
        · cases ha; exact ⟨rfl, hsw⟩
        · cases ha
        · simp at ha
      · intro n hn
        simp only [List.mem_append, List.mem_cons, List.mem_singleton] at hn
        rcases hn with hn | hn | hn | hn | hn
        · exact absurd hn (hpreR n)
        · cases hn
        · cases hn
        · cases hn
        · simp at hn
    · rw [htr]
      constructor
      · intro a ha
        simp only [List.mem_append, List.mem_cons, List.mem_singleton] at ha
        rcases ha with ha | ha | ha | ha | ha
        · exact absurd ha (hpreO a)
        · cases ha
        · cases ha; exact ⟨rfl, hsw⟩
        · cases ha
        · simp at ha
      · intro n hn
        simp only [List.mem_append, List.mem_cons, List.mem_singleton] at hn
        rcases hn with hn | hn | hn | hn | hn
        · exact absurd hn (hpreR n)
        · cases hn
        · cases hn
        · cases hn
        · simp at hn
    · have hmidO : ∀ a, Event.deviceOpen a ∉ mid :=
        fun a hmem => not_deviceOpen_of_isRun (hmid _ hmem) a rfl
      have hmidR : ∀ n, Event.newRadioInterface n ∉ mid :=
        fun n hmem => not_newRadioInterface_of_isRun (hmid _ hmem) n rfl
      have key : ∀ tail : List Event, (∀ a, Event.deviceOpen a ∉ tail) →
          (∀ n, Event.newRadioInterface n ∉ tail) →
          (main b env fuel).trace = pre ++
            [Event.deviceMake b.SAMPSPERSYM,
              Event.deviceOpen (argSwitch b env (initState env)).1.deviceArgs,
              Event.newRadioInterface (argSwitch b env (initState env)).1.numARFCN] ++ mid ++ tail →
          (∀ a, Event.deviceOpen a ∈ (main b env fuel).trace →
            a = (argSwitch b env (initState env)).1.deviceArgs ∧
              (argSwitch b env (initState env)).2.2 = none) ∧
          (∀ n, Event.newRadioInterface n ∈ (main b env fuel).trace →
            n = (argSwitch b env (initState env)).1.numARFCN ∧
              0 ≤ env.radioType ∧ env.radioType = b.NORMAL) := by
        intro tail ht1 ht2 htr
        rw [htr]
        constructor
        · intro a ha
          simp only [List.mem_append, List.mem_cons, List.mem_singleton] at ha
          rcases ha with ((ha | ha | ha | ha | ha) | ha) | ha
          · exact absurd ha (hpreO a)
          · cases ha
          · cases ha; exact ⟨rfl, hsw⟩
          · cases ha
          · simp at ha
          · exact absurd ha (hmidO a)
          · exact absurd ha (ht1 a)
        · intro n hn
          simp only [List.mem_append, List.mem_cons, List.mem_singleton] at hn
          rcases hn with ((hn | hn | hn | hn | hn) | hn) | hn
          · exact absurd hn (hpreR n)
          · cases hn
          · cases hn
          · cases hn; exact ⟨rfl, h0, hN⟩
          · simp at hn
          · exact absurd hn (hmidR n)
          · exact absurd hn (ht2 n)
      rcases hrun with ⟨_, htr, _⟩ | ⟨_, ⟨_, htr⟩ | ⟨_, htr⟩⟩
      · exact key [] (by simp) (by simp) (by simpa using htr)
      · exact key [] (by simp) (by simp) (by simpa using htr)
      · refine key (Event.readShutdown true ::
          teardownEvents (argSwitch b env (initState env)).1.numARFCN) ?_ ?_ htr
        · intro a ha
          simp only [List.mem_cons] at ha
          rcases ha with ha | ha
          · cases ha
          · exact not_deviceOpen_of_teardown _ a ha
        · intro n hn
          simp only [List.mem_cons] at hn
          rcases hn with hn | hn
          · cases hn
          · exact not_newRadioInterface_of_teardown _ n hn

/-- C6: with the program name as the only argument the switch leaves the
channel count at 1 and the device arguments empty and lets the run continue;
with exactly three arguments it sets the device arguments to the third one,
unchanged, and the channel count to `atoi` of the second, and any opening of
the device in that run passes the third argument; with any other number of
arguments than 1, 2 or 3 the only action of `main` is the usage line on
standard output, and it returns -1, a non-zero status, with the shutdown flag
and the configuration table as they were at the start. -/
theorem argSwitch_mapping (b : Build) (env : Env) (fuel : Nat) :
    (env.argc = 1 →
      argSwitch b env (initState env) = (⟨1, ""⟩, initState env, none)) ∧
    (∀ arg1 arg2, env.args = [arg1, arg2] →
      (argSwitch b env (initState env)).1 = ⟨atoi arg1, arg2⟩ ∧
      ∀ a, Event.deviceOpen a ∈ (main b env fuel).trace → a = arg2) ∧
    (env.argc ≠ 1 → env.argc ≠ 2 → env.argc ≠ 3 →
      main b env fuel =
        ⟨{ gbShutdown := false, gConfig := env.config,
           trace := [Event.stdout (env.argv0 ++ " <chans> <device args>")] }, .exited (-1)⟩ ∧
      exitStatus (-1) ≠ 0) := by
  refine ⟨?_, ?_, ?_⟩
  · intro h
    have hargs : env.args = [] := by
      cases hl : env.args with
      | nil => rfl
      | cons x xs => simp [Env.argc, hl] at h
    simp [argSwitch, hargs]
  · intro arg1 arg2 hargs
    have hloc : (argSwitch b env (initState env)).1 = ⟨atoi arg1, arg2⟩ := by
      by_cases hn : atoi arg1 > b.CHAN_MAX
      · simp [argSwitch, hargs, caseTwo_reject b arg1 _ _ hn]
      · simp [argSwitch, hargs, caseTwo_accept b arg1 _ _ (not_lt.mp hn)]
    refine ⟨hloc, ?_⟩
    intro a ha
    have := ((main_uses_locals b env fuel).1 a ha).1
    rw [this, hloc]
  · intro h1 h2 h3
    refine ⟨?_, exitStatus_neg_one⟩
    have hsw : argSwitch b env (initState env) =
        (⟨1, ""⟩, emit (.stdout (env.argv0 ++ " <chans> <device args>")) (initState env),
          some (-1)) := by
      match hl : env.args with
      | [] => simp [Env.argc, hl] at h1
      | [_] => simp [Env.argc, hl] at h2
      | [_, _] => simp [Env.argc, hl] at h3
      | _ :: _ :: _ :: _ => simp [argSwitch, hl]
    simp only [main, hsw]
    simp [emit, initState]

/-- C6 (witness): the command lines `trx`, `trx 2 addr=10.0.0.1` and
`trx 1 2 3`. -/
theorem argSwitch_mapping_witness :
    argSwitch sampleBuild (sampleEnv []) (initState (sampleEnv [])) =
      (⟨1, ""⟩, initState (sampleEnv []), none) ∧
    (argSwitch sampleBuild (sampleEnv ["2", "addr=10.0.0.1"])
        (initState (sampleEnv ["2", "addr=10.0.0.1"]))).1 = ⟨atoi "2", "addr=10.0.0.1"⟩ ∧
    (main sampleBuild (sampleEnv ["1", "2", "3"]) 3).termination = .exited (-1) :=
  ⟨(argSwitch_mapping sampleBuild (sampleEnv []) 3).1 (by decide),
    ((argSwitch_mapping sampleBuild (sampleEnv ["2", "addr=10.0.0.1"]) 3).2.1 _ _ rfl).1,
    by rw [((argSwitch_mapping sampleBuild (sampleEnv ["1", "2", "3"]) 3).2.2
      (by decide) (by decide) (by decide)).1]⟩

/-- C9: when `device->open` reports a negative value or any mode other than
`NORMAL`, `main` ends with a non-zero status and its trace holds no
construction of a radio interface, of a drive loop or of a worker; if the run
got as far as opening the device, its last action is the alert
`Failed to open device, exiting...` for a negative value and the alert
`Unsupported configuration` otherwise, and the two texts differ. -/
theorem device_mode_gate (b : Build) (env : Env) (fuel : Nat)
    (h : env.radioType < 0 ∨ env.radioType ≠ b.NORMAL) :
    (∃ code, (main b env fuel).termination = .exited code ∧ exitStatus code ≠ 0) ∧
    (∀ e ∈ (main b env fuel).trace, e.isConstruction = false) ∧
    (∀ a, Event.deviceOpen a ∈ (main b env fuel).trace →
      (main b env fuel).trace.getLast? = some (Event.log LogLevel.ALERT
        (if env.radioType < 0 then "Failed to open device, exiting..."
          else "Unsupported configuration"))) ∧
    "Failed to open device, exiting..." ≠ "Unsupported configuration" := by
  obtain ⟨pre, hpre, hcase⟩ := main_cases b env fuel
  rcases hcase with ⟨htr, hex, _⟩ | ⟨trxPort, trxAddr, _, hsw, _, _, hdev⟩
  · refine ⟨hex, ?_, ?_, by decide⟩
    · intro e he
      rw [htr] at he
      exact isConstruction_false_of_isEarly (hpre e he)
    · intro a ha
      rw [htr] at ha
      exact absurd rfl (not_deviceOpen_of_isEarly (hpre _ ha) a)
  · rcases hdev with ⟨hneg, hterm, htr⟩ | ⟨h0, _, hterm, htr⟩ | ⟨h0, hN, _⟩
    · refine ⟨⟨EXIT_FAILURE, hterm, exitStatus_failure⟩, ?_, ?_, by decide⟩
      · intro e he
        rw [htr] at he
        simp only [List.mem_append, List.mem_cons, List.mem_singleton] at he
        rcases he with he | he | he | he | he
        · exact isConstruction_false_of_isEarly (hpre e he)
        · rw [he]; rfl
        · rw [he]; rfl
        · rw [he]; rfl
        · simp at he
      · intro a _
        rw [htr, if_pos hneg]
        simp
    · refine ⟨⟨EXIT_FAILURE, hterm, exitStatus_failure⟩, ?_, ?_, by decide⟩
      · intro e he
        rw [htr] at he
        simp only [List.mem_append, List.mem_cons, List.mem_singleton] at he
        rcases he with he | he | he | he | he
        · exact isConstruction_false_of_isEarly (hpre e he)
        · rw [he]; rfl
        · rw [he]; rfl
        · rw [he]; rfl
        · simp at he
      · intro a _
        rw [htr, if_neg (not_lt.mpr h0)]
        simp
    · rcases h with h | h
      · exact absurd h0 (not_le.mpr h)
      · exact absurd hN h

/-- C9 (witness): a device that reports mode 1 while `NORMAL` is 0. -/
theorem device_mode_gate_witness :
    (∃ code, (main sampleBuild resampEnv 3).termination = .exited code ∧ exitStatus code ≠ 0) ∧
    (main sampleBuild resampEnv 3).trace.getLast? =
      some (Event.log LogLevel.ALERT "Unsupported configuration") :=
  have h := device_mode_gate sampleBuild resampEnv 3 (Or.inr (by decide))
  ⟨h.1, h.2.2.1 "" (by decide)⟩

/-! ## Results on the teardown -/

theorem precedes_of_split (p q : Event → Bool) (l1 l2 : List Event)
    (h1 : ∀ x ∈ l1, q x = false) (h2 : ∀ y ∈ l2, p y = false) :
    Precedes p q (l1 ++ l2) := by
  unfold Precedes
  rw [List.pairwise_append]
  refine ⟨?_, ?_, ?_⟩
  · have key : ∀ l : List Event, (∀ x ∈ l, q x = false) →
        l.Pairwise (fun x y => ¬ (q x = true ∧ p y = true)) := by
      intro l
      induction l with
      | nil => intro _; exact List.Pairwise.nil
      | cons e rest ih =>
        intro hl
        refine List.Pairwise.cons ?_ (ih (fun x hx => hl x (List.mem_cons_of_mem _ hx)))
        intro y _ hc
        have := hl e (List.mem_cons_self _ _)
        rw [this] at hc
        exact Bool.false_ne_true hc.1
    exact key l1 h1
  · have key : ∀ l : List Event, (∀ y ∈ l, p y = false) →
        l.Pairwise (fun x y => ¬ (q x = true ∧ p y = true)) := by
      intro l
      induction l with
      | nil => intro _; exact List.Pairwise.nil
      | cons e rest ih =>
        intro hl
        refine List.Pairwise.cons ?_ (ih (fun x hx => hl x (List.mem_cons_of_mem _ hx)))
        intro y hy hc
        have := hl y (List.mem_cons_of_mem _ hy)
        rw [this] at hc
        exact Bool.false_ne_true hc.2
    exact key l2 h2
  · intro a ha c _ hc
    rw [h1 a ha] at hc
    exact Bool.false_ne_true hc.1

theorem noneUntil_of_split (g p : Event → Bool) (l1 : List Event) (e : Event)
    (l2 : List Event) (h1 : ∀ x ∈ l1, p x = false) (he : g e = true) :
    noneUntil g p (l1 ++ e :: l2) = true := by
  induction l1 with
  | nil => simp [noneUntil, he]
  | cons x rest ih =>
    have hx := h1 x (List.mem_cons_self _ _)
    have hrest := ih (fun y hy => h1 y (List.mem_cons_of_mem _ hy))
    simp only [List.cons_append, noneUntil, hx]
    cases g x <;> simp [hrest]

theorem noneUntil_of_none (g p : Event → Bool) (l : List Event) (h : ∀ x ∈ l, p x = false) :
    noneUntil g p l = true := by
  induction l with
  | nil => rfl
  | cons x rest ih =>
    have hx := h x (List.mem_cons_self _ _)
    have hrest := ih (fun y hy => h y (List.mem_cons_of_mem _ hy))
    simp only [noneUntil, hx, hrest]
    cases g x <;> simp

theorem not_teardown_of_isCalm {e : Event} (h : e.isCalm = true) : e.isTeardown = false := by
  cases e <;> first | rfl | simp [Event.isCalm, Event.isTeardown] at h

theorem not_readTrue_of_isCalm {e : Event} (h : e.isCalm = true) :
    e ≠ Event.readShutdown true := by
  intro he
  rw [he] at h
  simp [Event.isCalm] at h

theorem workersOf_spawnSeq_chans (b : Build) (trxPort : Int) (trxAddr : String) (l : List Nat) :
    ∀ primary, (workersOf (spawnSeq b trxPort trxAddr l primary)).map Prod.fst = l := by
  intro primary
  rw [workersOf_spawnSeq]
  cases l with
  | nil => rfl
  | cons i rest => simp [List.map_map, Function.comp_def]

theorem filterMap_worker_stop (l : List Nat) :
    List.filterMap Event.worker? (l.map Event.trxShutdown) = [] := by
  induction l with
  | nil => rfl
  | cons i rest ih => simp [List.filterMap_cons, Event.worker?, ih]

theorem filterMap_worker_delete (l : List Nat) :
    List.filterMap Event.worker? (l.map Event.deleteTransceiver) = [] := by
  induction l with
  | nil => rfl
  | cons i rest ih => simp [List.filterMap_cons, Event.worker?, ih]

theorem workersOf_teardownEvents (n : Int) : workersOf (teardownEvents n) = [] := by
  simp [teardownEvents, workersOf, List.filterMap_append, filterMap_worker_stop,
    filterMap_worker_delete, Event.worker?]

/-- A run of `main` either performs no teardown action at all and never reads
the flag as true, or it ends with the read of a true flag followed by the
complete teardown sequence. -/
theorem main_calm_or_teardown (b : Build) (env : Env) (fuel : Nat) :
    (∀ e ∈ (main b env fuel).trace, e.isCalm = true) ∨
    (∃ before, (∀ e ∈ before, e.isCalm = true) ∧
      (workersOf before).map Prod.fst =
        chanIndices (argSwitch b env (initState env)).1.numARFCN ∧
      (main b env fuel).termination = .exited 0 ∧
      (main b env fuel).trace = before ++ Event.readShutdown true ::
        teardownEvents (argSwitch b env (initState env)).1.numARFCN) := by
  obtain ⟨pre, hpre, hcase⟩ := main_cases b env fuel
  have hpreC : ∀ e ∈ pre, e.isCalm = true := fun e he => isCalm_of_isEarly (hpre e he)
  rcases hcase with ⟨htr, _, _⟩ | ⟨trxPort, trxAddr, _, hsw, _, _, hdev⟩
  · left
    rw [htr]
    exact hpreC
  · rcases hdev with ⟨_, _, htr⟩ | ⟨_, _, _, htr⟩ | ⟨h0, hN, mid, hmid, _, hrun⟩
    · left
      rw [htr]
      intro e he
      simp only [List.mem_append, List.mem_cons, List.mem_singleton] at he
      rcases he with he | he | he | he | he
      · exact hpreC e he
      · rw [he]; rfl
      · rw [he]; rfl
      · rw [he]; rfl
      · simp at he
    · left
      rw [htr]
      intro e he
      simp only [List.mem_append, List.mem_cons, List.mem_singleton] at he
      rcases he with he | he | he | he | he
      · exact hpreC e he
      · rw [he]; rfl
      · rw [he]; rfl
      · rw [he]; rfl
      · simp at he
    · have hcalm : ∀ e ∈ pre ++
          [Event.deviceMake b.SAMPSPERSYM,
            Event.deviceOpen (argSwitch b env (initState env)).1.deviceArgs,
            Event.newRadioInterface (argSwitch b env (initState env)).1.numARFCN] ++ mid,
          e.isCalm = true := by
        intro e he
        simp only [List.mem_append, List.mem_cons, List.mem_singleton] at he
        rcases he with (he | he | he | he | he) | he
        · exact hpreC e he
        · rw [he]; rfl
        · rw [he]; rfl
        · rw [he]; rfl
        · simp at he
        · exact isCalm_of_isRun (hmid e he)
      rcases hrun with ⟨_, htr, _⟩ | ⟨hw, ⟨_, htr⟩ | ⟨hterm, htr⟩⟩
      · left; rw [htr]; exact hcalm
      · left; rw [htr]; exact hcalm
      · right
        refine ⟨_, hcalm, ?_, hterm, htr⟩
        rw [workersOf_append, workersOf_append, hw,
          workersOf_eq_nil pre (fun e he => worker_none_of_isEarly (hpre e he))]
        simp [workersOf, Event.worker?, workersOf_spawnSeq_chans]
        exact workersOf_spawnSeq_chans b trxPort trxAddr _ true

/-- C5: in every run of `main`, reading the trace from its start, no stop
request and no deletion occurs until the polling loop has read the shutdown
flag as true.  When the loop does read it as true, the workers constructed in
the run are the channels `0 .. n-1` for the channel count `n`; each of them is
sent a stop request and each is deleted; every stop request comes before every
deletion of a worker, every deletion of a worker before the deletion of the
drive loop, that before the deletion of the radio interface, and that before
the deletion of the device; and the run ends with status 0. -/
theorem teardown_order (b : Build) (env : Env) (fuel : Nat) :
    noneUntil (fun e => decide (e = Event.readShutdown true)) Event.isTeardown
      (main b env fuel).trace = true ∧
    (Event.readShutdown true ∈ (main b env fuel).trace →
      (workersOf (main b env fuel).trace).map Prod.fst =
        chanIndices (argSwitch b env (initState env)).1.numARFCN ∧
      (∀ i ∈ chanIndices (argSwitch b env (initState env)).1.numARFCN,
        Event.trxShutdown i ∈ (main b env fuel).trace ∧
        Event.deleteTransceiver i ∈ (main b env fuel).trace) ∧
      Event.deleteDriveLoop ∈ (main b env fuel).trace ∧
      Event.deleteRadioInterface ∈ (main b env fuel).trace ∧
      Event.deleteRadioDevice ∈ (main b env fuel).trace ∧
      Precedes Event.isStop Event.isDeleteWorker (main b env fuel).trace ∧
      Precedes Event.isDeleteWorker (fun e => decide (e = Event.deleteDriveLoop))
        (main b env fuel).trace ∧
      Precedes (fun e => decide (e = Event.deleteDriveLoop))
        (fun e => decide (e = Event.deleteRadioInterface)) (main b env fuel).trace ∧
      Precedes (fun e => decide (e = Event.deleteRadioInterface))
        (fun e => decide (e = Event.deleteRadioDevice)) (main b env fuel).trace ∧
      (main b env fuel).termination = .exited 0) := by
  rcases main_calm_or_teardown b env fuel with hcalm | ⟨before, hbef, hw, hterm, htr⟩
  · refine ⟨noneUntil_of_none _ _ _ (fun e he => not_teardown_of_isCalm (hcalm e he)), ?_⟩
    intro h
    exact absurd rfl (not_readTrue_of_isCalm (hcalm _ h))
  · refine ⟨?_, fun _ => ⟨?_, ?_, ?_, ?_, ?_, ?_, ?_, ?_, ?_, hterm⟩⟩
    · rw [htr]
      exact noneUntil_of_split _ _ before _ _
        (fun e he => not_teardown_of_isCalm (hbef e he)) (by simp)
    · rw [htr]
      have : Event.readShutdown true ::
          teardownEvents (argSwitch b env (initState env)).1.numARFCN =
          [Event.readShutdown true] ++
            teardownEvents (argSwitch b env (initState env)).1.numARFCN := rfl
      have htd := workersOf_teardownEvents (argSwitch b env (initState env)).1.numARFCN
      rw [this, workersOf_append, workersOf_append, htd, List.map_append, hw]
      simp [workersOf, Event.worker?]
    · intro i hi
      rw [htr]
      constructor
      · simp only [teardownEvents, List.mem_append, List.mem_cons, List.mem_map]
        exact Or.inr (Or.inr (Or.inl (Or.inl (Or.inl (Or.inr ⟨i, hi, rfl⟩)))))
      · simp only [teardownEvents, List.mem_append, List.mem_cons, List.mem_map]
        exact Or.inr (Or.inr (Or.inl (Or.inr ⟨i, hi, rfl⟩)))
    · rw [htr]; simp [teardownEvents]
    · rw [htr]; simp [teardownEvents]
    · rw [htr]; simp [teardownEvents]
    · have hsplit : (main b env fuel).trace =
          (before ++ Event.readShutdown true ::
            Event.log LogLevel.NOTICE "Shutting down transceivers..." ::
            ((chanIndices (argSwitch b env (initState env)).1.numARFCN).map Event.trxShutdown
              ++ [Event.sleep 2])) ++
          ((chanIndices (argSwitch b env (initState env)).1.numARFCN).map Event.deleteTransceiver
            ++ [Event.deleteDriveLoop, Event.deleteRadioInterface, Event.deleteRadioDevice]) := by
        rw [htr]; simp [teardownEvents]
      rw [hsplit]
      apply precedes_of_split
      · intro x hx
        simp only [List.mem_append, List.mem_cons, List.mem_map, List.mem_singleton] at hx
        rcases hx with hx | hx | hx | ⟨i, _, hx⟩ | hx | hx
        · have := not_teardown_of_isCalm (hbef x hx)
          cases x <;> first | rfl | simp [Event.isTeardown] at this
        · rw [hx]; rfl
        · rw [hx]; rfl
        · rw [← hx]; rfl
        · rw [hx]; rfl
        · simp at hx
      · intro y hy
        simp only [List.mem_append, List.mem_cons, List.mem_map, List.mem_singleton] at hy
        rcases hy with ⟨i, _, hy⟩ | hy | hy | hy | hy
        · rw [← hy]; rfl
        · rw [hy]; rfl
        · rw [hy]; rfl
        · rw [hy]; rfl
        · simp at hy
    · have hsplit : (main b env fuel).trace =
          (before ++ Event.readShutdown true ::
            Event.log LogLevel.NOTICE "Shutting down transceivers..." ::
            ((chanIndices (argSwitch b env (initState env)).1.numARFCN).map Event.trxShutdown
              ++ Event.sleep 2 :: (chanIndices (argSwitch b env (initState env)).1.numARFCN).map
                Event.deleteTransceiver)) ++
          [Event.deleteDriveLoop, Event.deleteRadioInterface, Event.deleteRadioDevice] := by
        rw [htr]; simp [teardownEvents]
      rw [hsplit]
      apply precedes_of_split
      · intro x hx
        simp only [List.mem_append, List.mem_cons, List.mem_map, List.mem_singleton] at hx
        rcases hx with hx | hx | hx | ⟨i, _, hx⟩ | hx | ⟨i, _, hx⟩
        · have := not_teardown_of_isCalm (hbef x hx)
          cases x <;> first | rfl | simp [Event.isTeardown] at this
        · rw [hx]; rfl
        · rw [hx]; rfl
        · rw [← hx]; rfl
        · rw [hx]; rfl
        · rw [← hx]; rfl
      · intro y hy
        simp only [List.mem_cons, List.mem_singleton] at hy
        rcases hy with hy | hy | hy | hy
        · rw [hy]; rfl
        · rw [hy]; rfl
        · rw [hy]; rfl
        · simp at hy
    · have hsplit : (main b env fuel).trace =
          (before ++ Event.readShutdown true ::
            Event.log LogLevel.NOTICE "Shutting down transceivers..." ::
            ((chanIndices (argSwitch b env (initState env)).1.numARFCN).map Event.trxShutdown
              ++ Event.sleep 2 :: ((chanIndices (argSwitch b env (initState env)).1.numARFCN).map
                Event.deleteTransceiver ++ [Event.deleteDriveLoop]))) ++
          [Event.deleteRadioInterface, Event.deleteRadioDevice] := by
        rw [htr]; simp [teardownEvents]
      rw [hsplit]
      apply precedes_of_split
      · intro x hx
        simp only [List.mem_append, List.mem_cons, List.mem_map, List.mem_singleton] at hx
        rcases hx with hx | hx | hx | ⟨i, _, hx⟩ | hx | ⟨i, _, hx⟩ | hx | hx
        · have := not_teardown_of_isCalm (hbef x hx)
          cases x <;> first | rfl | simp [Event.isTeardown] at this
        · rw [hx]; rfl
        · rw [hx]; rfl
        · rw [← hx]; rfl
        · rw [hx]; rfl
        · rw [← hx]; rfl
        · rw [hx]; rfl
        · simp at hx
      · intro y hy
        simp only [List.mem_cons, List.mem_singleton] at hy
        rcases hy with hy | hy | hy
        · rw [hy]; rfl
        · rw [hy]; rfl
        · simp at hy
    · have hsplit : (main b env fuel).trace =
          (before ++ Event.readShutdown true ::
            Event.log LogLevel.NOTICE "Shutting down transceivers..." ::
            ((chanIndices (argSwitch b env (initState env)).1.numARFCN).map Event.trxShutdown
              ++ Event.sleep 2 :: ((chanIndices (argSwitch b env (initState env)).1.numARFCN).map
                Event.deleteTransceiver ++
                  [Event.deleteDriveLoop, Event.deleteRadioInterface]))) ++
          [Event.deleteRadioDevice] := by
        rw [htr]; simp [teardownEvents]
      rw [hsplit]
      apply precedes_of_split
      · intro x hx
        simp only [List.mem_append, List.mem_cons, List.mem_map, List.mem_singleton] at hx
        rcases hx with hx | hx | hx | ⟨i, _, hx⟩ | hx | ⟨i, _, hx⟩ | hx | hx | hx
        · have := not_teardown_of_isCalm (hbef x hx)
          cases x <;> first | rfl | simp [Event.isTeardown] at this
        · rw [hx]; rfl
        · rw [hx]; rfl
        · rw [← hx]; rfl
        · rw [hx]; rfl
        · rw [← hx]; rfl
        · rw [hx]; rfl
        · rw [hx]; rfl
        · simp at hx
      · intro y hy
        simp only [List.mem_cons, List.mem_singleton] at hy
        rcases hy with hy | hy
        · rw [hy]; rfl
        · simp at hy

/-- C5 (witness): the command line `trx 4` with a signal during the first
sleep. -/
theorem teardown_order_witness :
    Event.deleteRadioDevice ∈ (main sampleBuild (sampleEnv ["4"]) 5).trace ∧
    Precedes Event.isStop Event.isDeleteWorker (main sampleBuild (sampleEnv ["4"]) 5).trace ∧
    (main sampleBuild (sampleEnv ["4"]) 5).termination = .exited 0 :=
  have h := (teardown_order sampleBuild (sampleEnv ["4"]) 5).2 (by decide)
  ⟨h.2.2.2.2.1, h.2.2.2.2.2.1, h.2.2.2.2.2.2.2.2.2⟩

/-! ## Results on the lower bound of the channel count -/

theorem argSwitch_accept (b : Build) (env : Env) (arg1 : String) (more : List String)
    (hargs : env.args = arg1 :: more) (hargc : env.argc = 2 ∨ env.argc = 3)
    (hmax : atoi arg1 ≤ b.CHAN_MAX) :
    (argSwitch b env (initState env)).1.numARFCN = atoi arg1 ∧
    (argSwitch b env (initState env)).2.2 = none := by
  match more, hargs, hargc with
  | [], hargs, _ => simp [argSwitch, hargs, caseTwo_accept b arg1 _ _ hmax]
  | [arg2], hargs, _ => simp [argSwitch, hargs, caseTwo_accept b arg1 _ _ hmax]
  | _ :: _ :: _, hargs, hargc => simp [Env.argc, hargs] at hargc

theorem argSwitch_reject (b : Build) (env : Env) (arg1 : String) (more : List String)
    (hargs : env.args = arg1 :: more) (hargc : env.argc = 2 ∨ env.argc = 3)
    (hn : atoi arg1 > b.CHAN_MAX) :
    (argSwitch b env (initState env)).2.2 = some (-1) := by
  match more, hargs, hargc with
  | [], hargs, _ => simp [argSwitch, hargs, caseTwo_reject b arg1 _ _ hn]
  | [arg2], hargs, _ => simp [argSwitch, hargs, caseTwo_reject b arg1 _ _ hn]
  | _ :: _ :: _, hargs, hargc => simp [Env.argc, hargs] at hargc

theorem chanIndices_of_lt_one (n : Int) (h : n < 1) : chanIndices n = [] := by
  have : n.toNat = 0 := by omega
  simp [chanIndices, this]

/-- C3 (amended): `main` rejects a channel count only when it exceeds
`CHAN_MAX`; a count below 1 is not rejected.  For a command line with 2 or 3
arguments: every run that opens the device has a channel count of at most
`CHAN_MAX`; and when the count parses to `n < 1` with `n ≤ CHAN_MAX`, the
handlers install and the configuration probe succeeds, the argument switch
lets the run continue with `numARFCN = n`, the device is made and opened, no
worker is constructed, and, when the device reports the mode `NORMAL`, the
radio interface and the drive loop are constructed for `n` channels and the
run does not end with a failure status: it polls and, once the flag is read as
true, ends with status 0. -/
theorem low_channel_count_not_rejected (b : Build) (env : Env) (fuel : Nat)
    (arg1 : String) (more : List String)
    (hargs : env.args = arg1 :: more) (hargc : env.argc = 2 ∨ env.argc = 3) :
    (∀ a, Event.deviceOpen a ∈ (main b env fuel).trace → atoi arg1 ≤ b.CHAN_MAX) ∧
    (atoi arg1 < 1 → atoi arg1 ≤ b.CHAN_MAX →
      0 ≤ env.sigactionRc SIGINT → 0 ≤ env.sigactionRc SIGTERM →
      (testConfig env CONFIGDB (initState env)).1 = 0 →
      (argSwitch b env (initState env)).1.numARFCN = atoi arg1 ∧
      (argSwitch b env (initState env)).2.2 = none ∧
      Event.deviceMake b.SAMPSPERSYM ∈ (main b env fuel).trace ∧
      Event.deviceOpen (argSwitch b env (initState env)).1.deviceArgs ∈ (main b env fuel).trace ∧
      workersOf (main b env fuel).trace = [] ∧
      (0 ≤ env.radioType → env.radioType = b.NORMAL →
        Event.newRadioInterface (atoi arg1) ∈ (main b env fuel).trace ∧
        (∃ port addr, Event.newDriveLoop port addr (atoi arg1) ∈ (main b env fuel).trace) ∧
        ((main b env fuel).termination = .polling ∨
          (main b env fuel).termination = .exited 0))) := by
  constructor
  · intro a ha
    by_contra hn
    have h1 := argSwitch_reject b env arg1 more hargs hargc (not_le.mp hn)
    have h2 := ((main_uses_locals b env fuel).1 a ha).2
    rw [h1] at h2
    cases h2
  · intro hlow hmax hint hterm hcfg
    obtain ⟨hnum, hnone⟩ := argSwitch_accept b env arg1 more hargs hargc hmax
    refine ⟨hnum, hnone, ?_⟩
    obtain ⟨pre, hpre, hcase⟩ := main_cases b env fuel
    have hwpre : workersOf pre = [] :=
      workersOf_eq_nil pre (fun e he => worker_none_of_isEarly (hpre e he))
    rcases hcase with ⟨_, _, hwhy⟩ | ⟨trxPort, trxAddr, _, _, _, _, hdev⟩
    · rcases hwhy with h | h | h | h
      · exact absurd hnone h
      · exact absurd hint (not_le.mpr h)
      · exact absurd hterm (not_le.mpr h)
      · rw [hcfg] at h; simp at h
    · rcases hdev with ⟨hneg, _, htr⟩ | ⟨_, hne, _, htr⟩ | ⟨_, _, mid, hmid, hdl, hrun⟩
      · refine ⟨by rw [htr]; simp, by rw [htr]; simp, ?_, ?_⟩
        · rw [htr, workersOf_append, hwpre]
          simp [workersOf, Event.worker?]
        · intro h0 _
          exact absurd h0 (not_le.mpr hneg)
      · refine ⟨by rw [htr]; simp, by rw [htr]; simp, ?_, ?_⟩
        · rw [htr, workersOf_append, hwpre]
          simp [workersOf, Event.worker?]
        · intro _ hN
          exact absurd hN hne
      · rw [hnum] at hdl hrun
        have hwmid : workersOf (spawnSeq b trxPort trxAddr (chanIndices (atoi arg1)) true) = [] := by
          rw [chanIndices_of_lt_one _ hlow]
          rfl
        have hwdev : workersOf [Event.deviceMake b.SAMPSPERSYM,
            Event.deviceOpen (argSwitch b env (initState env)).1.deviceArgs,
            Event.newRadioInterface (atoi arg1)] = [] := by
          simp [workersOf, Event.worker?]
        rcases hrun with ⟨_, _, hoob⟩ | ⟨hw, ⟨hterm2, htr⟩ | ⟨hterm2, htr⟩⟩
        · exact absurd hmax hoob
        · refine ⟨by rw [htr]; simp, by rw [htr]; simp, ?_, ?_⟩
          · rw [htr, workersOf_append, workersOf_append, hwpre, hwdev, hw, hwmid]
            rfl
          · intro _ _
            refine ⟨by rw [htr]; simp, ⟨trxPort, trxAddr, ?_⟩, Or.inl hterm2⟩
            rw [htr]
            exact List.mem_append_right _ hdl
        · refine ⟨by rw [htr]; simp, by rw [htr]; simp, ?_, ?_⟩
          · rw [htr, workersOf_append, workersOf_append, workersOf_append, hwpre, hwdev, hw,
              hwmid]
            have : Event.readShutdown true :: teardownEvents (atoi arg1) =
                [Event.readShutdown true] ++ teardownEvents (atoi arg1) := rfl
            rw [this, workersOf_append, workersOf_teardownEvents]
            rfl
          · intro _ _
            refine ⟨by rw [htr]; simp, ⟨trxPort, trxAddr, ?_⟩, Or.inr hterm2⟩
            rw [htr]
            exact List.mem_append_left _ (List.mem_append_right _ hdl)

/-- C3 (witness): the command line `trx 0` in the sample environment. -/
theorem low_channel_count_not_rejected_witness :
    Event.deviceMake 1 ∈ (main sampleBuild (sampleEnv ["0"]) 3).trace ∧
    workersOf (main sampleBuild (sampleEnv ["0"]) 3).trace = [] :=
  have h := (low_channel_count_not_rejected sampleBuild (sampleEnv ["0"]) 3 "0" [] rfl
    (Or.inl rfl)).2 (by decide) (by decide) (by decide) (by decide) (by decide)
  ⟨h.2.2.1, h.2.2.2.2.1⟩

/-- C3 (counterexample): the command line `trx 0` asks for a channel count
below 1, yet `main` makes and opens the device, constructs the radio
interface and the drive loop for 0 channels, and ends with status 0. -/
theorem main_accepts_zero_channels :
    atoi "0" < 1 ∧
    (main sampleBuild (sampleEnv ["0"]) 3).termination = .exited 0 ∧
    exitStatus 0 = 0 ∧
    Event.deviceOpen "" ∈ (main sampleBuild (sampleEnv ["0"]) 3).trace ∧
    Event.newRadioInterface 0 ∈ (main sampleBuild (sampleEnv ["0"]) 3).trace ∧
    Event.newDriveLoop 5700 "127.0.0.1" 0 ∈ (main sampleBuild (sampleEnv ["0"]) 3).trace ∧
    (main sampleBuild (sampleEnv ["0"]) 3).trace.countP Event.isAllocation = 3 := by
  decide

/-! ## Failure of the drive loop -/

/-- C4 (the code at the failing input): with the program name as the only
argument and a drive loop whose `init` returns false, `main` logs the alert,
then constructs and starts worker 0 all the same, polls, tears down and ends
with status 0. -/
theorem driveInit_failure_not_fatal :
    (main sampleBuild faultyDriveEnv 3).trace =
      [Event.sigaction 2, Event.sigaction 15,
        Event.sqlite3_open "/etc/OpenBTS/OpenBTS.db", Event.sqlite3_close,
        Event.gLogInit "NOTICE", Event.srandom,
        Event.deviceMake 1, Event.deviceOpen "", Event.newRadioInterface 1,
        Event.newDriveLoop 5700 "127.0.0.1" 1, Event.driveInit,
        Event.log LogLevel.ALERT "Failed to initialize drive loop",
        Event.newTransceiver 5700 "127.0.0.1" 1 0 true, Event.trxStart 0,
        Event.readShutdown false, Event.sleep 1,
        Event.log LogLevel.NOTICE "Received shutdown signal",
        Event.readShutdown true,
        Event.log LogLevel.NOTICE "Shutting down transceivers...",
        Event.trxShutdown 0, Event.sleep 2, Event.deleteTransceiver 0,
        Event.deleteDriveLoop, Event.deleteRadioInterface, Event.deleteRadioDevice] ∧
    (main sampleBuild faultyDriveEnv 3).termination = .exited 0 ∧
    exitStatus 0 = 0 := by
  decide

/-! ## Results on the spawn loop -/

/-- In every run of `main` that gets as far as the polling loop, the workers
constructed are those of the spawn loop for the channel count and the port
read from the configuration. -/
theorem main_workers (b : Build) (env : Env) (fuel : Nat)
    (hterm : (main b env fuel).termination = .polling ∨
      (main b env fuel).termination = .exited 0) :
    ∃ trxPort trxAddr, env.config.getNum "TRX.Port" = some trxPort ∧
      workersOf (main b env fuel).trace =
        workersOf (spawnSeq b trxPort trxAddr
          (chanIndices (argSwitch b env (initState env)).1.numARFCN) true) := by
  obtain ⟨pre, hpre, hcase⟩ := main_cases b env fuel
  have hwpre : workersOf pre = [] :=
    workersOf_eq_nil pre (fun e he => worker_none_of_isEarly (hpre e he))
  have hne : ∀ code, exitStatus code ≠ 0 → (main b env fuel).termination ≠ .exited code := by
    intro code hcode hc
    rcases hterm with h | h
    · rw [h] at hc; cases hc
    · rw [h] at hc
      injection hc with hc
      rw [← hc] at hcode
      exact hcode rfl
  rcases hcase with ⟨_, ⟨code, hc, hcode⟩, _⟩ | ⟨trxPort, trxAddr, _, _, hport, _, hdev⟩
  · exact absurd hc (hne code hcode)
  · rcases hdev with ⟨_, hc, _⟩ | ⟨_, _, hc, _⟩ | ⟨_, _, mid, _, _, hrun⟩
    · exact absurd hc (hne _ exitStatus_failure)
    · exact absurd hc (hne _ exitStatus_failure)
    · have hwdev : workersOf [Event.deviceMake b.SAMPSPERSYM,
          Event.deviceOpen (argSwitch b env (initState env)).1.deviceArgs,
          Event.newRadioInterface (argSwitch b env (initState env)).1.numARFCN] = [] := by
        simp [workersOf, Event.worker?]
      refine ⟨trxPort, trxAddr, hport, ?_⟩
      rcases hrun with ⟨hc, _, _⟩ | ⟨hw, ⟨_, htr⟩ | ⟨_, htr⟩⟩
      · rcases hterm with h | h <;> rw [h] at hc <;> cases hc
      · rw [htr, workersOf_append, workersOf_append, hwpre, hwdev, hw]
        rfl
      · have : Event.readShutdown true ::
            teardownEvents (argSwitch b env (initState env)).1.numARFCN =
            [Event.readShutdown true] ++
              teardownEvents (argSwitch b env (initState env)).1.numARFCN := rfl
        rw [htr, this, workersOf_append, workersOf_append, workersOf_append, workersOf_append,
          hwpre, hwdev, hw, workersOf_teardownEvents]
        simp [workersOf, Event.worker?]

/-- C1: for a channel count `n` with `1 ≤ n ≤ CHAN_MAX` and any base port, the
spawn loop of `main` completes without leaving the array and appends to the
trace, for `i = 0, 1, ..., n-1` in this order, the construction of worker `i`
with control port `trxPort + 2 * i`, channel index `i` and primary flag
`i = 0`, each followed at once by the start of that worker.  So exactly `n`
workers are constructed, and the only primary one is channel 0 on the base
port.  In every run of `main` that gets as far as the polling loop with
channel count `n` and base port `trxPort` read from the configuration, the
workers constructed in the whole run are exactly these. -/
theorem spawnLoop_spec (b : Build) (trxPort : Int) (trxAddr : String) (n : Int) (st : State)
    (h1 : 1 ≤ n) (h2 : n ≤ b.CHAN_MAX) :
    spawnLoop b trxPort trxAddr (chanIndices n) true st =
      ({ st with trace := st.trace ++ spawnEvents b trxPort trxAddr n.toNat }, true) ∧
    workersOf (spawnEvents b trxPort trxAddr n.toNat) =
      (List.range n.toNat).map (fun (i : Nat) => (i, trxPort + 2 * (i : Int), decide (i = 0))) ∧
    ((workersOf (spawnEvents b trxPort trxAddr n.toNat)).length : Int) = n ∧
    (workersOf (spawnEvents b trxPort trxAddr n.toNat)).filter (fun w => w.2.2) =
      [(0, trxPort, true)] ∧
    (∀ (env : Env) (fuel : Nat),
      (argSwitch b env (initState env)).1.numARFCN = n →
      env.config.getNum "TRX.Port" = some trxPort →
      ((main b env fuel).termination = .polling ∨ (main b env fuel).termination = .exited 0) →
      workersOf (main b env fuel).trace =
        (List.range n.toNat).map
          (fun (i : Nat) => (i, trxPort + 2 * (i : Int), decide (i = 0)))) := by
  have hw := workersOf_spawnSeq_range b trxPort trxAddr n.toNat
  rw [spawnSeq_range] at hw
  refine ⟨?_, hw, ?_, ?_, ?_⟩
  · rw [spawnLoop_inBounds b trxPort trxAddr _ true st (chanIndices_lt n _ h2)]
    simp [chanIndices, spawnSeq_range]
  · rw [hw]
    simp only [List.length_map, List.length_range]
    omega
  · rw [hw]
    obtain ⟨k, hk⟩ : ∃ k, n.toNat = k + 1 := ⟨n.toNat - 1, by omega⟩
    rw [hk, List.range_succ_eq_map]
    simp [List.filter_map, Function.comp_def, List.filter_eq_nil_iff]
  · intro env fuel hn hport hterm
    obtain ⟨port2, addr2, hport2, hws⟩ := main_workers b env fuel hterm
    rw [hport] at hport2
    have hp : trxPort = port2 := Option.some.inj hport2
    rw [hws, hn, ← hp]
    exact workersOf_spawnSeq_range b trxPort addr2 n.toNat

/-- C1 (witness): the command line `trx 4` on base port 5700 with
`CHAN_MAX = 8`. -/
theorem spawnLoop_spec_witness :
    workersOf (main sampleBuild (sampleEnv ["4"]) 5).trace =
      [(0, 5700, true), (1, 5702, false), (2, 5704, false), (3, 5706, false)] := by
  rw [(spawnLoop_spec sampleBuild 5700 "127.0.0.1" 4 (initState (sampleEnv ["4"]))
    (by decide) (by decide)).2.2.2.2 (sampleEnv ["4"]) 5 (by decide) (by decide) (by decide)]
  decide

end MultiTRX
